import Mathlib

/-!
# Vulkan bootstrap of `Application`: a shallow embedding

The C++ sources embedded here are `queue-family-indices.h`, `is-device-suitable.cpp`,
`initialize-vulkan.cpp`, `application.cpp` and `debugger.cpp`.

Modelling conventions.

* Vulkan and GLFW handles are natural numbers, `VK_NULL_HANDLE` is `0`.  The member
  `physicalDevice` is the only handle the class initialises (to `VK_NULL_HANDLE`); the
  other members start with whatever value the object state gives them.
* The host (driver, loader, GLFW) is a record `Host` of the answers it gives to the
  queries and creation calls the program issues.
* `std::optional<uint32_t>` is `Option Nat`.  The loop counter `i` of
  `findQueueFamilies` is a C `int` and the family count a `uint32_t`; a host reports a
  handful of families, far from the point where either would wrap, so both are `Nat`.
* A C string is a `String`; `strcmp(a, b) == 0` is equality of the strings.
* A thrown C++ exception is a value of `Exception`; a procedure of `Application`
  maps the object state to the new state and the exception it threw, if any.
* Console output (`std::clog`, `std::cout`, `std::cerr`) is not modelled.
-/

namespace VulkanTest

/-! ## Handles and host data -/

abbrev VkInstance := Nat
abbrev VkPhysicalDevice := Nat
abbrev VkDevice := Nat
abbrev VkSurfaceKHR := Nat
abbrev VkQueue := Nat
abbrev VkDebugUtilsMessengerEXT := Nat
abbrev VkResult := Int

/-- The success code of the Vulkan API. -/
def VK_SUCCESS : VkResult := 0

/-- The error code `CreateDebugUtilsMessengerEXT` returns when the lookup fails. -/
def VK_ERROR_EXTENSION_NOT_PRESENT : VkResult := -7

/-- The graphics capability bit of `VkQueueFlags` (`0x00000001` in the Vulkan headers). -/
def VK_QUEUE_GRAPHICS_BIT : Nat := 1

/-- The value of the header macro `VK_EXT_DEBUG_UTILS_EXTENSION_NAME`. -/
def VK_EXT_DEBUG_UTILS_EXTENSION_NAME : String := "VK_EXT_debug_utils"

/-- The part of `VkQueueFamilyProperties` the program reads. -/
structure VkQueueFamilyProperties where
  queueFlags : Nat
  deriving DecidableEq, Repr

/-- The part of `VkLayerProperties` the program reads. -/
structure VkLayerProperties where
  layerName : String
  deriving DecidableEq, Repr

/-- The null handle. -/
def VK_NULL_HANDLE : Nat := 0

/-- The descriptor filled by `populateDebugMessengerCreateInfo`. -/
structure VkDebugUtilsMessengerCreateInfoEXT where
  messageSeverity : Nat
  messageType : Nat
  deriving DecidableEq, Repr

/-- The part of `VkInstanceCreateInfo` that `createInstance` fills: the layer names
(`enabledLayerCount`, `ppEnabledLayerNames`), the chained `pNext` descriptor (`none` is
`nullptr`) and the extension names.  The constant application metadata is left out. -/
structure VkInstanceCreateInfo where
  enabledLayerNames : List String
  pNext : Option VkDebugUtilsMessengerCreateInfoEXT
  enabledExtensionNames : List String
  deriving DecidableEq, Repr

/-- The part of `VkDeviceQueueCreateInfo` that `createLogicalDevice` fills; the priority
it points to, the float `1.0f`, is left out. -/
structure VkDeviceQueueCreateInfo where
  queueFamilyIndex : Nat
  queueCount : Nat
  deriving DecidableEq, Repr

/-- The part of `VkDeviceCreateInfo` that `createLogicalDevice` fills. -/
structure VkDeviceCreateInfo where
  queueCreateInfos : List VkDeviceQueueCreateInfo
  enabledExtensionCount : Nat
  enabledLayerNames : List String
  deriving DecidableEq, Repr

/-- The answers of the host to the calls the program issues.  A creation call answers
with its result code and the handle it writes on success.  `vkGetInstanceProcAddr`
answers whether the looked-up function pointer is non-null.  The last field records
that the handles the host enumerates are valid handles, never `VK_NULL_HANDLE`. -/
structure Host where
  vkEnumerateInstanceLayerProperties : List VkLayerProperties
  glfwGetRequiredInstanceExtensions : List String
  vkCreateInstance : VkInstanceCreateInfo → VkResult × VkInstance
  vkGetInstanceProcAddr : VkInstance → String → Bool
  vkCreateDebugUtilsMessengerEXT :
    VkInstance → VkDebugUtilsMessengerCreateInfoEXT → VkResult × VkDebugUtilsMessengerEXT
  glfwCreateWindowSurface : VkInstance → Nat → VkResult × VkSurfaceKHR
  vkEnumeratePhysicalDevices : VkInstance → List VkPhysicalDevice
  vkGetPhysicalDeviceQueueFamilyProperties : VkPhysicalDevice → List VkQueueFamilyProperties
  vkGetPhysicalDeviceSurfaceSupportKHR : VkPhysicalDevice → Nat → VkSurfaceKHR → Bool
  vkCreateDevice : VkPhysicalDevice → VkDeviceCreateInfo → VkResult × VkDevice
  vkGetDeviceQueue : VkDevice → Nat → Nat → VkQueue
  enumerated_ne_null :
    ∀ vkInstance, ∀ device ∈ vkEnumeratePhysicalDevices vkInstance, device ≠ VK_NULL_HANDLE

/-- A call issued to the host, with the handles and descriptors passed. -/
inductive ApiCall where
  | vkEnumerateInstanceLayerProperties
  | glfwGetRequiredInstanceExtensions
  | vkCreateInstance (createInfo : VkInstanceCreateInfo)
  | vkGetInstanceProcAddr (vkInstance : VkInstance) (name : String)
  | vkCreateDebugUtilsMessengerEXT (vkInstance : VkInstance)
  | glfwCreateWindowSurface (vkInstance : VkInstance) (window : Nat)
  | vkEnumeratePhysicalDevices (vkInstance : VkInstance)
  | vkGetPhysicalDeviceProperties (device : VkPhysicalDevice)
  | vkGetPhysicalDeviceQueueFamilyProperties (device : VkPhysicalDevice)
  | vkGetPhysicalDeviceSurfaceSupportKHR (device : VkPhysicalDevice) (queueFamilyIndex : Nat)
      (surface : VkSurfaceKHR)
  | vkCreateDevice (physicalDevice : VkPhysicalDevice) (createInfo : VkDeviceCreateInfo)
  | vkGetDeviceQueue (device : VkDevice) (queueFamilyIndex : Nat) (queueIndex : Nat)
  | vkDestroyDevice (device : VkDevice)
  | vkDestroyDebugUtilsMessengerEXT (vkInstance : VkInstance)
      (debugMessenger : VkDebugUtilsMessengerEXT)
  | vkDestroySurfaceKHR (vkInstance : VkInstance) (surface : VkSurfaceKHR)
  | vkDestroyInstance (vkInstance : VkInstance)
  | glfwDestroyWindow (window : Nat)
  | glfwTerminate
  deriving DecidableEq, Repr

/-- A thrown exception: `std::runtime_error` with its message, or the
`std::bad_optional_access` of `std::optional::value` on an empty optional. -/
inductive Exception where
  | runtime_error (what : String)
  | bad_optional_access
  deriving DecidableEq, Repr

/-! ## application.h: the object state -/

/-- The data members of `Application` (the member `instance` is `vkInstance` here), and
`calls`, the host calls issued so far, oldest first. -/
structure Application where
  device : VkDevice
  surface : VkSurfaceKHR
  window : Nat
  vkInstance : VkInstance
  debugMessenger : VkDebugUtilsMessengerEXT
  physicalDevice : VkPhysicalDevice
  graphicsQueue : VkQueue
  calls : List ApiCall
  deriving DecidableEq, Repr

/-- Record host calls as issued, in order, after those already issued. -/
def Application.issue (app : Application) (cs : List ApiCall) : Application :=
  { app with calls := app.calls ++ cs }

/-- The outcome of a member procedure: the new object state and the exception thrown,
`none` when the procedure returned. -/
abbrev Outcome := Application × Option Exception

/-- Sequencing of two procedures: the second runs only when the first returned. -/
def andThen (first second : Application → Outcome) : Application → Outcome :=
  fun app =>
    match first app with
    | (app1, none) => second app1
    | (app1, some e) => (app1, some e)

/-! ## queue-family-indices.h -/

/-- The struct `QueueFamilyIndices`: two optional family indices. -/
structure QueueFamilyIndices where
  graphicsFamily : Option Nat
  presentFamily : Option Nat
  deriving DecidableEq, Repr

/-- The method `isComplete`: both optionals hold a value. -/
def QueueFamilyIndices.isComplete (indices : QueueFamilyIndices) : Bool :=
  indices.graphicsFamily.isSome && indices.presentFamily.isSome

/-! ## initialize-vulkan.cpp: findQueueFamilies -/

/-- The test `queueFamily.queueFlags & VK_QUEUE_GRAPHICS_BIT` of the loop body. -/
def hasGraphicsBit (queueFamily : VkQueueFamilyProperties) : Bool :=
  queueFamily.queueFlags &&& VK_QUEUE_GRAPHICS_BIT != 0

/-- The range-for loop of `findQueueFamilies` over the remaining families, with the loop
counter `i`, the value `presentSupport` obtained before the loop, and the indices so far.
Each assignment is unconditional; the loop breaks as soon as the indices are complete. -/
def findQueueFamiliesLoop (presentSupport : Bool) :
    List VkQueueFamilyProperties → Nat → QueueFamilyIndices → QueueFamilyIndices
  | [], _, indices => indices
  | queueFamily :: rest, i, indices =>
    let indices1 :=
      if hasGraphicsBit queueFamily then { indices with graphicsFamily := some i } else indices
    let indices2 :=
      if presentSupport then { indices1 with presentFamily := some i } else indices1
    if indices2.isComplete then indices2
    else findQueueFamiliesLoop presentSupport rest (i + 1) indices2

/-- The host calls one run of `findQueueFamilies` issues: the family count, the family
data, and a single surface-support query, for family index `0`. -/
def findQueueFamiliesCalls (surface : VkSurfaceKHR) (device : VkPhysicalDevice) :
    List ApiCall :=
  [.vkGetPhysicalDeviceQueueFamilyProperties device,
   .vkGetPhysicalDeviceQueueFamilyProperties device,
   .vkGetPhysicalDeviceSurfaceSupportKHR device 0 surface]

/-- `Application::findQueueFamilies`; `surface` is the member it reads.  The support
query is issued once, before the loop, while `i` is still `0`. -/
def findQueueFamilies (host : Host) (surface : VkSurfaceKHR) (device : VkPhysicalDevice) :
    QueueFamilyIndices :=
  let i := 0
  let queueFamilies := host.vkGetPhysicalDeviceQueueFamilyProperties device
  let presentSupport := host.vkGetPhysicalDeviceSurfaceSupportKHR device i surface
  findQueueFamiliesLoop presentSupport queueFamilies i
    { graphicsFamily := none, presentFamily := none }

/-! ## is-device-suitable.cpp -/

/-- `Application::isDeviceSuitable`. -/
def isDeviceSuitable (host : Host) (surface : VkSurfaceKHR) (device : VkPhysicalDevice) :
    Bool :=
  (findQueueFamilies host surface device).isComplete

/-! ## debugger.cpp -/

/-- The list `validationLayers` defined in `application.cpp`. -/
def validationLayers : List String := ["VK_LAYER_KHRONOS_validation"]

/-- The inner loop of `checkValidationLayerSupport`: scan the available layers for one
whose name compares equal (`strcmp(...) == 0`) to `layerName`, stopping at the first. -/
def layerFound (layerName : String) : List VkLayerProperties → Bool
  | [] => false
  | layerProperties :: rest =>
    if layerName == layerProperties.layerName then true else layerFound layerName rest

/-- `Application::checkValidationLayerSupport`, with the requested names (the global
`validationLayers` in the source) and the layers the host enumerates as arguments:
return `false` at the first requested name that is not found, `true` after the loop. -/
def checkValidationLayerSupport (requested : List String)
    (availableLayers : List VkLayerProperties) : Bool :=
  match requested with
  | [] => true
  | layerName :: rest =>
    if !layerFound layerName availableLayers then false
    else checkValidationLayerSupport rest availableLayers

/-- The two enumeration calls of `checkValidationLayerSupport` (count, then data). -/
def checkValidationLayerSupportCalls : List ApiCall :=
  [.vkEnumerateInstanceLayerProperties, .vkEnumerateInstanceLayerProperties]

/-- `Application::populateDebugMessengerCreateInfo`: severities verbose, warning and
error (`0x0001 | 0x0100 | 0x1000`), message types general, validation and performance
(`0x1 | 0x2 | 0x4`); the callback pointer is the fixed `debugCallback`. -/
def populateDebugMessengerCreateInfo : VkDebugUtilsMessengerCreateInfoEXT :=
  { messageSeverity := 0x0001 ||| 0x0100 ||| 0x1000, messageType := 0x1 ||| 0x2 ||| 0x4 }

/-- The free function `CreateDebugUtilsMessengerEXT`: look the creation function up on
the instance and call it, or answer `VK_ERROR_EXTENSION_NOT_PRESENT`. -/
def CreateDebugUtilsMessengerEXT (host : Host) (createInfo : VkDebugUtilsMessengerCreateInfoEXT)
    (app : Application) : Application × VkResult :=
  let app1 := app.issue [.vkGetInstanceProcAddr app.vkInstance "vkCreateDebugUtilsMessengerEXT"]
  if host.vkGetInstanceProcAddr app.vkInstance "vkCreateDebugUtilsMessengerEXT" then
    let answer := host.vkCreateDebugUtilsMessengerEXT app.vkInstance createInfo
    let app2 := app1.issue [.vkCreateDebugUtilsMessengerEXT app.vkInstance]
    (if answer.1 == VK_SUCCESS then { app2 with debugMessenger := answer.2 } else app2, answer.1)
  else
    (app1, VK_ERROR_EXTENSION_NOT_PRESENT)

/-- `Application::setupDebugMessenger`. -/
def setupDebugMessenger (host : Host) (enableValidationLayers : Bool) (app : Application) :
    Outcome :=
  if !enableValidationLayers then (app, none)
  else
    let createInfo := populateDebugMessengerCreateInfo
    let created := CreateDebugUtilsMessengerEXT host createInfo app
    if created.2 != VK_SUCCESS then
      (created.1, some (.runtime_error "failed to set up debug messenger!"))
    else (created.1, none)

/-- `Application::DestroyDebugUtilsMessengerEXT`: look the destroy function up on the
instance and call it when the lookup succeeded. -/
def DestroyDebugUtilsMessengerEXT (host : Host) (app : Application) : Application :=
  let app1 := app.issue [.vkGetInstanceProcAddr app.vkInstance "vkDestroyDebugUtilsMessengerEXT"]
  if host.vkGetInstanceProcAddr app.vkInstance "vkDestroyDebugUtilsMessengerEXT" then
    app1.issue [.vkDestroyDebugUtilsMessengerEXT app.vkInstance app.debugMessenger]
  else app1

/-! ## application.cpp -/

/-- `Application::getRequiredExtensions`, with the list GLFW demands as argument: copy
it, and push the debug-utils extension name when validation layers are enabled. -/
def getRequiredExtensions (glfwExtensions : List String) (enableValidationLayers : Bool) :
    List String :=
  let extensions := glfwExtensions
  if enableValidationLayers then extensions ++ [VK_EXT_DEBUG_UTILS_EXTENSION_NAME]
  else extensions

/-- `Application::cleanup`. -/
def cleanup (host : Host) (enableValidationLayers : Bool) (app : Application) : Application :=
  let app1 := app.issue [.vkDestroyDevice app.device]
  let app2 := if enableValidationLayers then DestroyDebugUtilsMessengerEXT host app1 else app1
  app2.issue [.vkDestroySurfaceKHR app2.vkInstance app2.surface,
              .vkDestroyInstance app2.vkInstance,
              .glfwDestroyWindow app2.window,
              .glfwTerminate]

/-! ## initialize-vulkan.cpp -/

/-- `Application::createInstance`.  The layer check is evaluated only when validation
layers are enabled (`&&` short-circuits). -/
def createInstance (host : Host) (enableValidationLayers : Bool) (app : Application) :
    Outcome :=
  let app1 := if enableValidationLayers then app.issue checkValidationLayerSupportCalls else app
  if enableValidationLayers &&
      !checkValidationLayerSupport validationLayers host.vkEnumerateInstanceLayerProperties then
    (app1, some (.runtime_error "validation layers requested, but not available!"))
  else
    let app2 := app1.issue [.glfwGetRequiredInstanceExtensions]
    let layers := if enableValidationLayers then validationLayers else []
    let pNext := if enableValidationLayers then some populateDebugMessengerCreateInfo else none
    let extensions :=
      getRequiredExtensions host.glfwGetRequiredInstanceExtensions enableValidationLayers
    let app3 := app2.issue [.glfwGetRequiredInstanceExtensions]
    let createInfo : VkInstanceCreateInfo :=
      { enabledLayerNames := layers, pNext := pNext, enabledExtensionNames := extensions }
    let answer := host.vkCreateInstance createInfo
    let app4 := app3.issue [.vkCreateInstance createInfo]
    if answer.1 != VK_SUCCESS then
      (app4, some (.runtime_error "failed to create instance!"))
    else ({ app4 with vkInstance := answer.2 }, none)

/-- `Application::createSurface`. -/
def createSurface (host : Host) (app : Application) : Outcome :=
  let answer := host.glfwCreateWindowSurface app.vkInstance app.window
  let app1 := app.issue [.glfwCreateWindowSurface app.vkInstance app.window]
  if answer.1 != VK_SUCCESS then
    (app1, some (.runtime_error "failed to create window surface!"))
  else ({ app1 with surface := answer.2 }, none)

/-- The second loop of `pickPhysicalDevice`: test the devices in order, store the first
suitable one in `physicalDevice` and break. -/
def chooseSuitableDevice (host : Host) : List VkPhysicalDevice → Application → Application
  | [], app => app
  | device :: rest, app =>
    let app1 := app.issue (findQueueFamiliesCalls app.surface device)
    if isDeviceSuitable host app.surface device then
      { app1.issue [.vkGetPhysicalDeviceProperties device] with physicalDevice := device }
    else chooseSuitableDevice host rest app1

/-- `Application::pickPhysicalDevice`. -/
def pickPhysicalDevice (host : Host) (app : Application) : Outcome :=
  let devices := host.vkEnumeratePhysicalDevices app.vkInstance
  let deviceCount := devices.length
  let app1 := app.issue [.vkEnumeratePhysicalDevices app.vkInstance]
  if deviceCount == 0 then
    (app1, some (.runtime_error "failed to find GPUs with Vulkan support!"))
  else
    let app2 := app1.issue [.vkEnumeratePhysicalDevices app.vkInstance]
    let app3 := app2.issue (devices.map .vkGetPhysicalDeviceProperties)
    let app4 := chooseSuitableDevice host devices app3
    if app4.physicalDevice == VK_NULL_HANDLE then
      (app4, some (.runtime_error "failed to find a suitable GPU!"))
    else (app4, none)

/-- Insertion into a `std::set<uint32_t>`, kept as its ascending list of elements. -/
def stdSetInsert (x : Nat) : List Nat → List Nat
  | [] => [x]
  | y :: rest =>
    if x < y then x :: y :: rest
    else if x == y then y :: rest
    else y :: stdSetInsert x rest

/-- The queue-creation descriptors `createLogicalDevice` builds from the resolved
indices: the set `uniqueQueueFamilies` of the two values, then one descriptor for each
element in the iteration order of the set.  `none` stands for the
`std::bad_optional_access` that `value()` throws when an index is unset. -/
def queueCreateInfos (indices : QueueFamilyIndices) : Option (List VkDeviceQueueCreateInfo) :=
  match indices.graphicsFamily, indices.presentFamily with
  | some graphicsFamily, some presentFamily =>
    let uniqueQueueFamilies := stdSetInsert presentFamily (stdSetInsert graphicsFamily [])
    some (uniqueQueueFamilies.map fun queueFamily =>
      { queueFamilyIndex := queueFamily, queueCount := 1 })
  | _, _ => none

/-- `Application::createLogicalDevice`.  The presentation queue is requested from the
member `device` before `vkCreateDevice` is called; the graphics queue after it. -/
def createLogicalDevice (host : Host) (enableValidationLayers : Bool) (app : Application) :
    Outcome :=
  let indices := findQueueFamilies host app.surface app.physicalDevice
  let app1 := app.issue (findQueueFamiliesCalls app.surface app.physicalDevice)
  match queueCreateInfos indices, indices.graphicsFamily, indices.presentFamily with
  | some infos, some graphicsFamily, some presentFamily =>
    let createInfo : VkDeviceCreateInfo :=
      { queueCreateInfos := infos,
        enabledExtensionCount := 0,
        enabledLayerNames := if enableValidationLayers then validationLayers else [] }
    let app2 := app1.issue [.vkGetDeviceQueue app1.device presentFamily 0]
    let answer := host.vkCreateDevice app2.physicalDevice createInfo
    let app3 := app2.issue [.vkCreateDevice app2.physicalDevice createInfo]
    if answer.1 != VK_SUCCESS then
      (app3, some (.runtime_error "failed to create logical device!"))
    else
      let app4 := { app3 with device := answer.2 }
      let app5 := app4.issue [.vkGetDeviceQueue app4.device graphicsFamily 0]
      ({ app5 with graphicsQueue := host.vkGetDeviceQueue app4.device graphicsFamily 0 }, none)
  | _, _, _ => (app1, some .bad_optional_access)

/-- `Application::initVulkan`: the five steps in order, stopping at the first throw. -/
def initVulkan (host : Host) (enableValidationLayers : Bool) : Application → Outcome :=
  andThen (createInstance host enableValidationLayers)
    (andThen (setupDebugMessenger host enableValidationLayers)
      (andThen (createSurface host)
        (andThen (pickPhysicalDevice host)
          (createLogicalDevice host enableValidationLayers))))

/-! ## Creation and destruction order of the owned resources -/

/-- The resources `initVulkan` creates and `cleanup` destroys. -/
inductive Resource where
  | vkInstance
  | debugMessenger
  | surface
  | device
  deriving DecidableEq, Repr

/-- The resource a host call creates, if it is a creation call. -/
def ApiCall.creates : ApiCall → Option Resource
  | .vkCreateInstance _ => some .vkInstance
  | .vkCreateDebugUtilsMessengerEXT _ => some .debugMessenger
  | .glfwCreateWindowSurface _ _ => some .surface
  | .vkCreateDevice _ _ => some .device
  | _ => none

/-- The resource a host call destroys, if it is a destroy call. -/
def ApiCall.destroys : ApiCall → Option Resource
  | .vkDestroyDevice _ => some .device
  | .vkDestroyDebugUtilsMessengerEXT _ _ => some .debugMessenger
  | .vkDestroySurfaceKHR _ _ => some .surface
  | .vkDestroyInstance _ => some .vkInstance
  | _ => none

/-- The resources created by a sequence of host calls, in the order of the calls. -/
def creationOrder (calls : List ApiCall) : List Resource :=
  calls.filterMap ApiCall.creates

/-- The resources destroyed by a sequence of host calls, in the order of the calls. -/
def destructionOrder (calls : List ApiCall) : List Resource :=
  calls.filterMap ApiCall.destroys

/-- The host calls a procedure issued: those of the state after it that come after the
calls already present in the state before it. -/
def issuedSince (before after : Application) : List ApiCall :=
  after.calls.drop before.calls.length

/-! ## Concrete hosts and object states -/

/-- A host on which every creation call and every lookup succeeds, with the given
enumerated devices, their queue families, their per-family surface support, and the
given available layers. -/
def sampleHost (devices : List VkPhysicalDevice)
    (nonNull : ∀ device ∈ devices, device ≠ VK_NULL_HANDLE)
    (families : VkPhysicalDevice → List VkQueueFamilyProperties)
    (support : VkPhysicalDevice → Nat → Bool)
    (layers : List VkLayerProperties) : Host :=
  { vkEnumerateInstanceLayerProperties := layers
    glfwGetRequiredInstanceExtensions := ["VK_KHR_surface", "VK_KHR_xcb_surface"]
    vkCreateInstance := fun _ => (VK_SUCCESS, 101)
    vkGetInstanceProcAddr := fun _ _ => true
    vkCreateDebugUtilsMessengerEXT := fun _ _ => (VK_SUCCESS, 102)
    glfwCreateWindowSurface := fun _ _ => (VK_SUCCESS, 103)
    vkEnumeratePhysicalDevices := fun _ => devices
    vkGetPhysicalDeviceQueueFamilyProperties := families
    vkGetPhysicalDeviceSurfaceSupportKHR := fun device i _ => support device i
    vkCreateDevice := fun _ _ => (VK_SUCCESS, 104)
    vkGetDeviceQueue := fun _ queueFamilyIndex _ => 200 + queueFamilyIndex
    enumerated_ne_null := fun _ => nonNull }

/-- A queue family with the graphics bit only (`VK_QUEUE_GRAPHICS_BIT`). -/
def graphicsFamilyProps : VkQueueFamilyProperties := { queueFlags := 1 }

/-- A queue family without the graphics bit (transfer only, `0x4`). -/
def transferFamilyProps : VkQueueFamilyProperties := { queueFlags := 4 }

/-- The standard validation layer as the host lists it. -/
def khronosLayer : VkLayerProperties := { layerName := "VK_LAYER_KHRONOS_validation" }

/-- One device, handle `1`: family `0` has graphics but no presentation, family `1` has
graphics and presentation. -/
def hostSecondFamilyBoth : Host :=
  sampleHost [1] (by decide) (fun _ => [graphicsFamilyProps, graphicsFamilyProps])
    (fun _ i => i == 1) [khronosLayer]

/-- One device, handle `1`: family `0` is graphics-only, family `1` is present-only. -/
def hostScenarioB : Host :=
  sampleHost [1] (by decide) (fun _ => [graphicsFamilyProps, transferFamilyProps])
    (fun _ i => i == 1) [khronosLayer]

/-- One device, handle `1`, with two graphics families and no presentation support. -/
def hostTwoGraphicsNoPresent : Host :=
  sampleHost [1] (by decide) (fun _ => [graphicsFamilyProps, graphicsFamilyProps])
    (fun _ _ => false) [khronosLayer]

/-- One device, handle `1`, with two graphics families, both supporting presentation. -/
def hostTwoGraphicsPresent : Host :=
  sampleHost [1] (by decide) (fun _ => [graphicsFamilyProps, graphicsFamilyProps])
    (fun _ _ => true) [khronosLayer]

/-- Two devices: handle `1` has one graphics family without presentation support,
handle `2` has one family with graphics and presentation. -/
def hostScenarioE : Host :=
  sampleHost [1, 2] (by decide) (fun _ => [graphicsFamilyProps])
    (fun device i => device == 2 && i == 0) [khronosLayer]

/-- One device, handle `1`, whose single family has graphics and presentation; the
standard validation layer is available. -/
def hostScenarioA : Host :=
  sampleHost [1] (by decide) (fun _ => [graphicsFamilyProps]) (fun _ _ => true) [khronosLayer]

/-- The host of `hostScenarioA` without any available layer. -/
def hostNoLayers : Host :=
  sampleHost [1] (by decide) (fun _ => [graphicsFamilyProps]) (fun _ _ => true) []

/-- A freshly constructed `Application`: `physicalDevice` is `VK_NULL_HANDLE`, no host
call has been issued, and the uninitialised members hold the value `0`. -/
def freshApplication : Application :=
  { device := 0, surface := 0, window := 0, vkInstance := 0, debugMessenger := 0,
    physicalDevice := VK_NULL_HANDLE, graphicsQueue := 0, calls := [] }

/-- The state of a fresh object once the first four steps of `initVulkan` have returned
on `hostScenarioA` with validation layers disabled: the state `createLogicalDevice`
starts from. -/
def pickedApplication : Application :=
  (andThen (createInstance hostScenarioA false)
    (andThen (setupDebugMessenger hostScenarioA false)
      (andThen (createSurface hostScenarioA) (pickPhysicalDevice hostScenarioA)))
    freshApplication).1

/-! ## The loop of findQueueFamilies -/

theorem isComplete_eq_false_of_presentFamily (indices : QueueFamilyIndices)
    (h : indices.presentFamily = none) : indices.isComplete = false := by
  simp [QueueFamilyIndices.isComplete, h]

/-- Without presentation support the loop never sets `presentFamily`. -/
theorem findQueueFamiliesLoop_false_presentFamily (qs : List VkQueueFamilyProperties) :
    ∀ (i : Nat) (indices : QueueFamilyIndices), indices.presentFamily = none →
      (findQueueFamiliesLoop false qs i indices).presentFamily = none := by
  induction qs with
  | nil => intro i indices h; simpa [findQueueFamiliesLoop] using h
  | cons q rest ih =>
    intro i indices h
    by_cases hq : hasGraphicsBit q = true
    · have hp : ({ indices with graphicsFamily := some i } : QueueFamilyIndices).presentFamily
          = none := h
      simp [findQueueFamiliesLoop, hq, isComplete_eq_false_of_presentFamily _ hp]
      exact ih (i + 1) _ hp
    · simp [findQueueFamiliesLoop, hq, isComplete_eq_false_of_presentFamily _ h]
      exact ih (i + 1) _ h

/-- Without presentation support the loop runs to the end, and the last family with the
graphics bit, if any, is the one that stays in `graphicsFamily`. -/
theorem findQueueFamiliesLoop_false_graphicsFamily (qs : List VkQueueFamilyProperties) :
    ∀ (i : Nat) (indices : QueueFamilyIndices), indices.presentFamily = none →
      ((findQueueFamiliesLoop false qs i indices).graphicsFamily = indices.graphicsFamily ∧
          ∀ q ∈ qs, hasGraphicsBit q = false) ∨
      ∃ k q, qs[k]? = some q ∧ hasGraphicsBit q = true ∧
        (findQueueFamiliesLoop false qs i indices).graphicsFamily = some (i + k) ∧
        ∀ j q1, qs[j]? = some q1 → hasGraphicsBit q1 = true → j ≤ k := by
  induction qs with
  | nil => intro i indices _; left; simp [findQueueFamiliesLoop]
  | cons q rest ih =>
    intro i indices h
    by_cases hq : hasGraphicsBit q = true
    · have hp : ({ indices with graphicsFamily := some i } : QueueFamilyIndices).presentFamily
          = none := h
      simp only [findQueueFamiliesLoop, hq, if_true, Bool.false_eq_true, if_false,
        isComplete_eq_false_of_presentFamily _ hp]
      rcases ih (i + 1) _ hp with ⟨hg, hnone⟩ | ⟨k, q1, hk, hq1, hg, hmax⟩
      · right
        refine ⟨0, q, by simp, hq, by simpa using hg, ?_⟩
        intro j q1 hj hq1
        cases j with
        | zero => exact Nat.le_refl 0
        | succ j =>
          have hmem : q1 ∈ rest := List.getElem?_mem (by simpa using hj)
          have := hnone q1 hmem
          simp [hq1] at this
      · right
        refine ⟨k + 1, q1, by simpa using hk, hq1, by rw [hg]; congr 1; omega, ?_⟩
        intro j q2 hj hq2
        cases j with
        | zero => omega
        | succ j =>
          have := hmax j q2 (by simpa using hj) hq2
          omega
    · have hq0 : hasGraphicsBit q = false := by simpa using hq
      simp only [findQueueFamiliesLoop, hq0, Bool.false_eq_true, if_false,
        isComplete_eq_false_of_presentFamily _ h]
      rcases ih (i + 1) _ h with ⟨hg, hnone⟩ | ⟨k, q1, hk, hq1, hg, hmax⟩
      · left
        refine ⟨hg, ?_⟩
        intro q1 hq1
        rcases List.mem_cons.mp hq1 with rfl | hmem
        · exact hq0
        · exact hnone q1 hmem
      · right
        refine ⟨k + 1, q1, by simpa using hk, hq1, by rw [hg]; congr 1; omega, ?_⟩
        intro j q2 hj hq2
        cases j with
        | zero =>
          have : q = q2 := by simpa using hj
          subst this
          simp [hq0] at hq2
        | succ j =>
          have := hmax j q2 (by simpa using hj) hq2
          omega

/-- With presentation support the loop stops at the first family with the graphics bit
and returns its index in both fields; without such a family `graphicsFamily` stays
unset. -/
theorem findQueueFamiliesLoop_true (qs : List VkQueueFamilyProperties) :
    ∀ (i : Nat) (indices : QueueFamilyIndices), indices.graphicsFamily = none →
      ((findQueueFamiliesLoop true qs i indices).graphicsFamily = none ∧
          ∀ q ∈ qs, hasGraphicsBit q = false) ∨
      ∃ k q, qs[k]? = some q ∧ hasGraphicsBit q = true ∧
        (∀ j q1, qs[j]? = some q1 → hasGraphicsBit q1 = true → k ≤ j) ∧
        findQueueFamiliesLoop true qs i indices =
          { graphicsFamily := some (i + k), presentFamily := some (i + k) } := by
  induction qs with
  | nil => intro i indices h; left; simpa [findQueueFamiliesLoop] using h
  | cons q rest ih =>
    intro i indices h
    by_cases hq : hasGraphicsBit q = true
    · right
      refine ⟨0, q, by simp, hq, fun j _ _ _ => Nat.zero_le j, ?_⟩
      simp [findQueueFamiliesLoop, hq, QueueFamilyIndices.isComplete]
    · have hq0 : hasGraphicsBit q = false := by simpa using hq
      have hinc : ({ indices with presentFamily := some i } : QueueFamilyIndices).isComplete
          = false := by simp [QueueFamilyIndices.isComplete, h]
      have hg : ({ indices with presentFamily := some i } : QueueFamilyIndices).graphicsFamily
          = none := h
      simp only [findQueueFamiliesLoop, hq0, Bool.false_eq_true, if_false, if_true, hinc]
      rcases ih (i + 1) _ hg with ⟨hr, hnone⟩ | ⟨k, q1, hk, hq1, hmin, hr⟩
      · left
        refine ⟨hr, ?_⟩
        intro q1 hq1
        rcases List.mem_cons.mp hq1 with rfl | hmem
        · exact hq0
        · exact hnone q1 hmem
      · right
        refine ⟨k + 1, q1, by simpa using hk, hq1, ?_, ?_⟩
        · intro j q2 hj hq2
          cases j with
          | zero =>
            have : q = q2 := by simpa using hj
            subst this
            simp [hq0] at hq2
          | succ j =>
            have := hmin j q2 (by simpa using hj) hq2
            omega
        · rw [hr]
          have : i + 1 + k = i + (k + 1) := by omega
          rw [this]

/-! ## Queue-family resolution (C1, C2, C3, C6) -/

/-- C1, the code at the failing input: on a device whose family `1` has the graphics bit
and supports presentation (family `0` has the graphics bit only), `findQueueFamilies`
leaves `presentFamily` unset, the result is not complete and `isDeviceSuitable` is
`false`; the claim requires a complete result there. -/
theorem findQueueFamilies_misses_later_present_family :
    (∃ q, (hostSecondFamilyBoth.vkGetPhysicalDeviceQueueFamilyProperties 1)[1]? = some q ∧
        hasGraphicsBit q = true) ∧
      hostSecondFamilyBoth.vkGetPhysicalDeviceSurfaceSupportKHR 1 1 0 = true ∧
      findQueueFamilies hostSecondFamilyBoth 0 1 =
        { graphicsFamily := some 1, presentFamily := none } ∧
      (findQueueFamilies hostSecondFamilyBoth 0 1).isComplete = false ∧
      isDeviceSuitable hostSecondFamilyBoth 0 1 = false := by
  refine ⟨⟨graphicsFamilyProps, by decide, by decide⟩, by decide, by decide, by decide,
    by decide⟩

/-- C2, the code at the failing input (family `0` graphics-only, family `1`
present-only): the only surface-support query issued is the one for family index `0`,
`findQueueFamilies` returns `graphicsFamily = 0` with `presentFamily` unset instead of
`1`, no queue-creation descriptor list is built (`value()` throws), and the bootstrap
stops in `pickPhysicalDevice`, before `createLogicalDevice`. -/
theorem findQueueFamilies_scenarioB_presentFamily_unset :
    hasGraphicsBit graphicsFamilyProps = true ∧ hasGraphicsBit transferFamilyProps = false ∧
      hostScenarioB.vkGetPhysicalDeviceQueueFamilyProperties 1 =
        [graphicsFamilyProps, transferFamilyProps] ∧
      hostScenarioB.vkGetPhysicalDeviceSurfaceSupportKHR 1 0 0 = false ∧
      hostScenarioB.vkGetPhysicalDeviceSurfaceSupportKHR 1 1 0 = true ∧
      findQueueFamiliesCalls 0 1 =
        [.vkGetPhysicalDeviceQueueFamilyProperties 1,
         .vkGetPhysicalDeviceQueueFamilyProperties 1,
         .vkGetPhysicalDeviceSurfaceSupportKHR 1 0 0] ∧
      findQueueFamilies hostScenarioB 0 1 =
        { graphicsFamily := some 0, presentFamily := none } ∧
      queueCreateInfos (findQueueFamilies hostScenarioB 0 1) = none ∧
      (initVulkan hostScenarioB false freshApplication).2 =
        some (.runtime_error "failed to find a suitable GPU!") := by
  refine ⟨by decide, by decide, by decide, by decide, by decide, by decide, by decide,
    by decide, by decide⟩

/-- C3, counterexample: a device with two graphics families and no presentation
support.  Family `0` has the graphics bit, yet the returned `graphicsFamily` is `1`: the
later family overwrote the first match, so the result is not the smallest index. -/
theorem findQueueFamilies_graphicsFamily_overwritten :
    (∃ q, (hostTwoGraphicsNoPresent.vkGetPhysicalDeviceQueueFamilyProperties 1)[0]? = some q ∧
        hasGraphicsBit q = true) ∧
      (findQueueFamilies hostTwoGraphicsNoPresent 0 1).graphicsFamily = some 1 ∧
      ¬ (∀ g, (findQueueFamilies hostTwoGraphicsNoPresent 0 1).graphicsFamily = some g →
          ∀ j q, (hostTwoGraphicsNoPresent.vkGetPhysicalDeviceQueueFamilyProperties 1)[j]? =
            some q → hasGraphicsBit q = true → g ≤ j) := by
  refine ⟨⟨graphicsFamilyProps, by decide, by decide⟩, by decide, ?_⟩
  intro h
  have := h 1 (by decide) 0 graphicsFamilyProps (by decide) (by decide)
  omega

/-- C3, amended: the `graphicsFamily` returned by `findQueueFamilies` is unset iff no
family of the device has the graphics bit; when set it is the index of a family with the
graphics bit.  When the result is complete (the loop stopped at its `break`), which is
the case whenever family `0` supports presentation, it is the smallest such index: the
first match wins and no later family overwrites it.  When the result is not complete
(the loop ran to the end) it is the largest such index, a later graphics-capable family
having overwritten an earlier one. -/
theorem findQueueFamilies_graphicsFamily_resolved (host : Host) (surface : VkSurfaceKHR)
    (device : VkPhysicalDevice) :
    ((findQueueFamilies host surface device).graphicsFamily = none ↔
        ∀ q ∈ host.vkGetPhysicalDeviceQueueFamilyProperties device, hasGraphicsBit q = false) ∧
      (∀ g, (findQueueFamilies host surface device).graphicsFamily = some g →
        ∃ q, (host.vkGetPhysicalDeviceQueueFamilyProperties device)[g]? = some q ∧
          hasGraphicsBit q = true) ∧
      (∀ g, (findQueueFamilies host surface device).graphicsFamily = some g →
        (findQueueFamilies host surface device).isComplete = true →
        ∀ j q, (host.vkGetPhysicalDeviceQueueFamilyProperties device)[j]? = some q →
          hasGraphicsBit q = true → g ≤ j) ∧
      (∀ g, (findQueueFamilies host surface device).graphicsFamily = some g →
        host.vkGetPhysicalDeviceSurfaceSupportKHR device 0 surface = true →
        (findQueueFamilies host surface device).isComplete = true ∧
          ∀ j q, (host.vkGetPhysicalDeviceQueueFamilyProperties device)[j]? = some q →
            hasGraphicsBit q = true → g ≤ j) ∧
      (∀ g, (findQueueFamilies host surface device).graphicsFamily = some g →
        (findQueueFamilies host surface device).isComplete = false →
        ∀ j q, (host.vkGetPhysicalDeviceQueueFamilyProperties device)[j]? = some q →
          hasGraphicsBit q = true → j ≤ g) := by
  unfold findQueueFamilies
  simp only []
  generalize host.vkGetPhysicalDeviceQueueFamilyProperties device = qs
  cases hs : host.vkGetPhysicalDeviceSurfaceSupportKHR device 0 surface with
  | false =>
    have hinc : (findQueueFamiliesLoop false qs 0
        { graphicsFamily := none, presentFamily := none }).isComplete = false :=
      isComplete_eq_false_of_presentFamily _
        (findQueueFamiliesLoop_false_presentFamily qs 0 _ rfl)
    rcases findQueueFamiliesLoop_false_graphicsFamily qs 0
        { graphicsFamily := none, presentFamily := none } rfl with
      ⟨hg, hnone⟩ | ⟨k, q, hk, hq, hg, hmax⟩
    · refine ⟨⟨fun _ => hnone, fun _ => hg⟩, ?_, ?_, ?_, ?_⟩
      · intro g hgs; rw [hg] at hgs; cases hgs
      · intro g hgs; rw [hg] at hgs; cases hgs
      · intro g hgs; rw [hg] at hgs; cases hgs
      · intro g hgs; rw [hg] at hgs; cases hgs
    · rw [Nat.zero_add] at hg
      refine ⟨⟨?_, ?_⟩, ?_, ?_, ?_, ?_⟩
      · intro hn; rw [hg] at hn; cases hn
      · intro hall
        have := hall q (List.getElem?_mem hk)
        rw [hq] at this; cases this
      · intro g hgs
        rw [hg] at hgs
        cases hgs
        exact ⟨q, hk, hq⟩
      · intro g _ hc
        rw [hinc] at hc
        cases hc
      · intro g _ hsup
        cases hsup
      · intro g hgs _ j q1 hj hq1
        rw [hg] at hgs
        cases hgs
        exact hmax j q1 hj hq1
  | true =>
    rcases findQueueFamiliesLoop_true qs 0
        { graphicsFamily := none, presentFamily := none } rfl with
      ⟨hg, hnone⟩ | ⟨k, q, hk, hq, hmin, hr⟩
    · refine ⟨⟨fun _ => hnone, fun _ => hg⟩, ?_, ?_, ?_, ?_⟩
      · intro g hgs; rw [hg] at hgs; cases hgs
      · intro g hgs; rw [hg] at hgs; cases hgs
      · intro g hgs; rw [hg] at hgs; cases hgs
      · intro g hgs; rw [hg] at hgs; cases hgs
    · rw [Nat.zero_add] at hr
      rw [hr]
      refine ⟨⟨?_, ?_⟩, ?_, ?_, ?_, ?_⟩
      · intro hn; cases hn
      · intro hall
        have := hall q (List.getElem?_mem hk)
        rw [hq] at this; cases this
      · intro g hgs
        cases hgs
        exact ⟨q, hk, hq⟩
      · intro g hgs _ j q1 hj hq1
        cases hgs
        exact hmin j q1 hj hq1
      · intro g hgs _
        cases hgs
        exact ⟨rfl, fun j q1 hj hq1 => hmin j q1 hj hq1⟩
      · intro g _ hinc
        simp [QueueFamilyIndices.isComplete] at hinc

/-- C3 at concrete devices, both with two graphics families: with presentation support
the result is complete and `graphicsFamily` is `0`, the smallest index with the bit;
without presentation support the result is not complete and `graphicsFamily` is `1`,
the largest. -/
theorem findQueueFamilies_graphicsFamily_resolved_witness :
    (findQueueFamilies hostTwoGraphicsPresent 0 1).graphicsFamily = some 0 ∧
      (findQueueFamilies hostTwoGraphicsPresent 0 1).isComplete = true ∧
      (∀ j q, (hostTwoGraphicsPresent.vkGetPhysicalDeviceQueueFamilyProperties 1)[j]? = some q →
        hasGraphicsBit q = true → 0 ≤ j) ∧
      (findQueueFamilies hostTwoGraphicsNoPresent 0 1).graphicsFamily = some 1 ∧
      (findQueueFamilies hostTwoGraphicsNoPresent 0 1).isComplete = false ∧
      (∀ j q, (hostTwoGraphicsNoPresent.vkGetPhysicalDeviceQueueFamilyProperties 1)[j]? =
          some q → hasGraphicsBit q = true → j ≤ 1) :=
  ⟨by decide, by decide,
    (findQueueFamilies_graphicsFamily_resolved hostTwoGraphicsPresent 0 1).2.2.1 0
      (by decide) (by decide),
    by decide, by decide,
    (findQueueFamilies_graphicsFamily_resolved hostTwoGraphicsNoPresent 0 1).2.2.2.2 1
      (by decide) (by decide)⟩

/-- C6: when no queue family of the device supports presentation to the surface,
`findQueueFamilies` returns `presentFamily` unset, the result is not complete and
`isDeviceSuitable` is `false`, whatever the queue flags of the families. -/
theorem findQueueFamilies_no_present_support (host : Host) (surface : VkSurfaceKHR)
    (device : VkPhysicalDevice)
    (h : ∀ j, j < (host.vkGetPhysicalDeviceQueueFamilyProperties device).length →
      host.vkGetPhysicalDeviceSurfaceSupportKHR device j surface = false) :
    (findQueueFamilies host surface device).presentFamily = none ∧
      (findQueueFamilies host surface device).isComplete = false ∧
      isDeviceSuitable host surface device = false := by
  have hp : (findQueueFamilies host surface device).presentFamily = none := by
    unfold findQueueFamilies
    simp only []
    cases hqs : host.vkGetPhysicalDeviceQueueFamilyProperties device with
    | nil => simp [findQueueFamiliesLoop]
    | cons q rest =>
      have h0 := h 0 (by rw [hqs]; simp)
      rw [h0]
      exact findQueueFamiliesLoop_false_presentFamily _ 0 _ rfl
  have hc := isComplete_eq_false_of_presentFamily _ hp
  exact ⟨hp, hc, by unfold isDeviceSuitable; exact hc⟩

/-- C6 at a concrete device: two graphics families, neither supporting presentation. -/
theorem findQueueFamilies_no_present_support_witness :
    (∀ j, j < (hostTwoGraphicsNoPresent.vkGetPhysicalDeviceQueueFamilyProperties 1).length →
        hostTwoGraphicsNoPresent.vkGetPhysicalDeviceSurfaceSupportKHR 1 j 0 = false) ∧
      (findQueueFamilies hostTwoGraphicsNoPresent 0 1).presentFamily = none ∧
      (findQueueFamilies hostTwoGraphicsNoPresent 0 1).isComplete = false ∧
      isDeviceSuitable hostTwoGraphicsNoPresent 0 1 = false :=
  ⟨fun _ _ => rfl,
   findQueueFamilies_no_present_support hostTwoGraphicsNoPresent 0 1 (fun _ _ => rfl)⟩

/-! ## Device selection (C4) -/

@[simp] theorem issue_surface (app : Application) (cs : List ApiCall) :
    (app.issue cs).surface = app.surface := rfl

@[simp] theorem issue_physicalDevice (app : Application) (cs : List ApiCall) :
    (app.issue cs).physicalDevice = app.physicalDevice := rfl

@[simp] theorem issue_vkInstance (app : Application) (cs : List ApiCall) :
    (app.issue cs).vkInstance = app.vkInstance := rfl

@[simp] theorem issue_calls (app : Application) (cs : List ApiCall) :
    (app.issue cs).calls = app.calls ++ cs := rfl

theorem issue_issue (app : Application) (cs ds : List ApiCall) :
    (app.issue cs).issue ds = app.issue (cs ++ ds) := by
  simp [Application.issue]

/-- A list with an element satisfying `p` splits at the first such element. -/
theorem exists_first_split {α : Type} (p : α → Bool) :
    ∀ l : List α, (∃ x ∈ l, p x = true) →
      ∃ pre d post, l = pre ++ d :: post ∧ (∀ x ∈ pre, p x = false) ∧ p d = true := by
  intro l
  induction l with
  | nil => rintro ⟨x, hx, _⟩; cases hx
  | cons a rest ih =>
    rintro ⟨x, hx, hpx⟩
    by_cases ha : p a = true
    · exact ⟨[], a, rest, rfl, by simp, ha⟩
    · have ha0 : p a = false := by simpa using ha
      have hrest : ∃ y ∈ rest, p y = true := by
        rcases List.mem_cons.mp hx with rfl | hmem
        · rw [ha0] at hpx; cases hpx
        · exact ⟨x, hmem, hpx⟩
      obtain ⟨pre, d, post, hl, hpre, hd⟩ := ih hrest
      refine ⟨a :: pre, d, post, by rw [hl]; rfl, ?_, hd⟩
      intro y hy
      rcases List.mem_cons.mp hy with rfl | hmem
      · exact ha0
      · exact hpre y hmem

/-- When no device of the list is suitable the selection loop tests each of them and
leaves `physicalDevice` as it was. -/
theorem chooseSuitableDevice_none (host : Host) (devices : List VkPhysicalDevice) :
    ∀ app : Application,
      (∀ d ∈ devices, isDeviceSuitable host app.surface d = false) →
      chooseSuitableDevice host devices app =
        app.issue (devices.flatMap (findQueueFamiliesCalls app.surface)) := by
  induction devices with
  | nil => intro app _; simp [chooseSuitableDevice, Application.issue]
  | cons d rest ih =>
    intro app h
    have hd := h d (List.mem_cons_self d rest)
    have hrest : ∀ x ∈ rest, isDeviceSuitable host
        (app.issue (findQueueFamiliesCalls app.surface d)).surface x = false :=
      fun x hx => h x (List.mem_cons_of_mem d hx)
    simp only [chooseSuitableDevice, hd, Bool.false_eq_true, if_false]
    rw [ih _ hrest, issue_issue]
    simp

/-- The selection loop stops at the first suitable device: it tests the devices before
it and the device itself, stores it, and tests none of the devices after it. -/
theorem chooseSuitableDevice_first (host : Host) (pre : List VkPhysicalDevice)
    (d : VkPhysicalDevice) (post : List VkPhysicalDevice) :
    ∀ app : Application,
      (∀ x ∈ pre, isDeviceSuitable host app.surface x = false) →
      isDeviceSuitable host app.surface d = true →
      chooseSuitableDevice host (pre ++ d :: post) app =
        { app.issue ((pre ++ [d]).flatMap (findQueueFamiliesCalls app.surface) ++
            [.vkGetPhysicalDeviceProperties d]) with physicalDevice := d } := by
  induction pre with
  | nil =>
    intro app _ hd
    simp [chooseSuitableDevice, hd, Application.issue]
  | cons a rest ih =>
    intro app h hd
    have ha := h a (List.mem_cons_self a rest)
    have hrest : ∀ x ∈ rest, isDeviceSuitable host
        (app.issue (findQueueFamiliesCalls app.surface a)).surface x = false :=
      fun x hx => h x (List.mem_cons_of_mem a hx)
    rw [show (a :: rest) ++ d :: post = a :: (rest ++ d :: post) from rfl]
    simp only [chooseSuitableDevice, ha, Bool.false_eq_true, if_false]
    rw [ih _ hrest (by simpa using hd)]
    simp [Application.issue]

/-- C4: on an object whose `physicalDevice` is still `VK_NULL_HANDLE`,
`pickPhysicalDevice` throws "failed to find GPUs with Vulkan support!" iff the host
enumerates no device; it throws "failed to find a suitable GPU!" iff the enumeration is
non-empty and `isDeviceSuitable` is false for every device; and when the enumeration
splits as `pre ++ d :: post` with every device of `pre` unsuitable and `d` suitable, it
returns with `physicalDevice = d`, having issued the enumeration and property queries
followed by the suitability queries for the devices of `pre` and for `d` only; it
returns iff some enumerated device is suitable. -/
theorem pickPhysicalDevice_first_match (host : Host) (app : Application)
    (hnull : app.physicalDevice = VK_NULL_HANDLE) :
    ((pickPhysicalDevice host app).2 =
          some (.runtime_error "failed to find GPUs with Vulkan support!") ↔
        host.vkEnumeratePhysicalDevices app.vkInstance = []) ∧
      ((pickPhysicalDevice host app).2 = some (.runtime_error "failed to find a suitable GPU!") ↔
        host.vkEnumeratePhysicalDevices app.vkInstance ≠ [] ∧
          ∀ d ∈ host.vkEnumeratePhysicalDevices app.vkInstance,
            isDeviceSuitable host app.surface d = false) ∧
      (∀ pre d post, host.vkEnumeratePhysicalDevices app.vkInstance = pre ++ d :: post →
        (∀ x ∈ pre, isDeviceSuitable host app.surface x = false) →
        isDeviceSuitable host app.surface d = true →
        (pickPhysicalDevice host app).2 = none ∧
          (pickPhysicalDevice host app).1.physicalDevice = d ∧
          (pickPhysicalDevice host app).1.calls =
            app.calls ++
              [.vkEnumeratePhysicalDevices app.vkInstance,
               .vkEnumeratePhysicalDevices app.vkInstance] ++
              (pre ++ d :: post).map .vkGetPhysicalDeviceProperties ++
              (pre ++ [d]).flatMap (findQueueFamiliesCalls app.surface) ++
              [.vkGetPhysicalDeviceProperties d]) ∧
      ((pickPhysicalDevice host app).2 = none ↔
        ∃ d ∈ host.vkEnumeratePhysicalDevices app.vkInstance,
          isDeviceSuitable host app.surface d = true) := by
  have hsplit : ∀ pre d post, host.vkEnumeratePhysicalDevices app.vkInstance = pre ++ d :: post →
      (∀ x ∈ pre, isDeviceSuitable host app.surface x = false) →
      isDeviceSuitable host app.surface d = true →
      (pickPhysicalDevice host app).2 = none ∧
        (pickPhysicalDevice host app).1.physicalDevice = d ∧
        (pickPhysicalDevice host app).1.calls =
          app.calls ++
            [.vkEnumeratePhysicalDevices app.vkInstance,
             .vkEnumeratePhysicalDevices app.vkInstance] ++
            (pre ++ d :: post).map .vkGetPhysicalDeviceProperties ++
            (pre ++ [d]).flatMap (findQueueFamiliesCalls app.surface) ++
            [.vkGetPhysicalDeviceProperties d] := by
    intro pre d post hdev hpre hd
    have hne : d ≠ VK_NULL_HANDLE :=
      host.enumerated_ne_null app.vkInstance d (by rw [hdev]; simp)
    have hlen : ((pre ++ d :: post).length == 0) = false := by simp
    unfold pickPhysicalDevice
    simp only [hdev, hlen, Bool.false_eq_true, if_false]
    rw [chooseSuitableDevice_first host pre d post _ (by simpa using hpre) (by simpa using hd)]
    simp [hne, Application.issue]
  have hnone : (∀ d ∈ host.vkEnumeratePhysicalDevices app.vkInstance,
      isDeviceSuitable host app.surface d = false) →
      host.vkEnumeratePhysicalDevices app.vkInstance ≠ [] →
      (pickPhysicalDevice host app).2 = some (.runtime_error "failed to find a suitable GPU!") := by
    intro hall hne
    have hlen : ((host.vkEnumeratePhysicalDevices app.vkInstance).length == 0) = false := by
      simpa using hne
    unfold pickPhysicalDevice
    simp only [hlen, Bool.false_eq_true, if_false]
    rw [chooseSuitableDevice_none host _ _ (by simpa using hall)]
    simp [hnull]
  have hempty : host.vkEnumeratePhysicalDevices app.vkInstance = [] →
      (pickPhysicalDevice host app).2 =
        some (.runtime_error "failed to find GPUs with Vulkan support!") := by
    intro he
    unfold pickPhysicalDevice
    simp [he]
  refine ⟨⟨?_, hempty⟩, ⟨?_, fun h => hnone h.2 h.1⟩, hsplit, ⟨?_, ?_⟩⟩
  rotate_left 2
  · intro hret
    by_contra hcon
    have hall : ∀ d ∈ host.vkEnumeratePhysicalDevices app.vkInstance,
        isDeviceSuitable host app.surface d = false := by
      intro d hd
      by_contra hsd
      exact hcon ⟨d, hd, by simpa using hsd⟩
    by_cases hne : host.vkEnumeratePhysicalDevices app.vkInstance = []
    · rw [hempty hne] at hret
      cases hret
    · rw [hnone hall hne] at hret
      cases hret
  · intro hex
    obtain ⟨pre, d, post, hl, hpre, hd⟩ := exists_first_split _ _ hex
    exact (hsplit pre d post hl hpre hd).1
  · intro herr
    by_contra hne
    by_cases hall : ∀ d ∈ host.vkEnumeratePhysicalDevices app.vkInstance,
        isDeviceSuitable host app.surface d = false
    · rw [hnone hall hne] at herr
      revert herr
      decide
    · have hex : ∃ d ∈ host.vkEnumeratePhysicalDevices app.vkInstance,
          isDeviceSuitable host app.surface d = true := by
        by_contra hcon
        apply hall
        intro d hd
        by_contra hsd
        exact hcon ⟨d, hd, by simpa using hsd⟩
      obtain ⟨pre, d, post, hl, hpre, hd⟩ := exists_first_split _ _ hex
      rw [(hsplit pre d post hl hpre hd).1] at herr
      cases herr
  · intro herr
    have hne : host.vkEnumeratePhysicalDevices app.vkInstance ≠ [] := by
      intro he
      rw [hempty he] at herr
      revert herr
      decide
    refine ⟨hne, ?_⟩
    intro d hd
    by_contra hsd
    have hex : ∃ d ∈ host.vkEnumeratePhysicalDevices app.vkInstance,
        isDeviceSuitable host app.surface d = true := ⟨d, hd, by simpa using hsd⟩
    obtain ⟨pre, d1, post, hl, hpre, hd1⟩ := exists_first_split _ _ hex
    rw [(hsplit pre d1 post hl hpre hd1).1] at herr
    cases herr

/-- C4 at a concrete host: of two enumerated devices the first has no present-capable
family and the second is suitable; the second is selected. -/
theorem pickPhysicalDevice_first_match_witness :
    freshApplication.physicalDevice = VK_NULL_HANDLE ∧
      hostScenarioE.vkEnumeratePhysicalDevices freshApplication.vkInstance = [1] ++ 2 :: [] ∧
      isDeviceSuitable hostScenarioE freshApplication.surface 1 = false ∧
      isDeviceSuitable hostScenarioE freshApplication.surface 2 = true ∧
      (pickPhysicalDevice hostScenarioE freshApplication).2 = none ∧
      (pickPhysicalDevice hostScenarioE freshApplication).1.physicalDevice = 2 :=
  have h := (pickPhysicalDevice_first_match hostScenarioE freshApplication rfl).2.2.1
    [1] 2 [] rfl (by decide) (by decide)
  ⟨rfl, rfl, by decide, by decide, h.1, h.2.1⟩

/-! ## Queue-creation descriptors (C5) -/

/-- The set built from the two resolved indices, as its ascending element list. -/
theorem stdSetInsert_pair (g p : Nat) :
    stdSetInsert p (stdSetInsert g []) =
      if p < g then [p, g] else if p = g then [g] else [g, p] := by
  by_cases h1 : p < g
  · simp [stdSetInsert, h1]
  · by_cases h2 : p = g
    · simp [stdSetInsert, h2]
    · simp [stdSetInsert, h1, h2]

/-- C5: for complete indices, with `g` the graphics and `p` the presentation family,
`createLogicalDevice` builds a descriptor list whose length is the number of distinct
values among the two (1 if `g = p`, 2 otherwise), whose `queueFamilyIndex` values are
exactly `g` and `p` without duplicate, each with `queueCount = 1`; and this list is the
one passed to `vkCreateDevice`. -/
theorem queueCreateInfos_unique_families (indices : QueueFamilyIndices)
    (h : indices.isComplete = true) :
    ∃ g p infos, indices.graphicsFamily = some g ∧ indices.presentFamily = some p ∧
      queueCreateInfos indices = some infos ∧
      infos.length = (if g = p then 1 else 2) ∧
      infos.length = [g, p].dedup.length ∧
      (infos.map VkDeviceQueueCreateInfo.queueFamilyIndex).Nodup ∧
      (∀ x, x ∈ infos.map VkDeviceQueueCreateInfo.queueFamilyIndex ↔ x = g ∨ x = p) ∧
      (∀ info ∈ infos, info.queueCount = 1) ∧
      (∀ (host : Host) (enableValidationLayers : Bool) (app : Application),
        findQueueFamilies host app.surface app.physicalDevice = indices →
        ApiCall.vkCreateDevice app.physicalDevice
            { queueCreateInfos := infos,
              enabledExtensionCount := 0,
              enabledLayerNames := if enableValidationLayers then validationLayers else [] } ∈
          (createLogicalDevice host enableValidationLayers app).1.calls) := by
  obtain ⟨gf, pf⟩ := indices
  cases gf with
  | none => simp [QueueFamilyIndices.isComplete] at h
  | some g =>
    cases pf with
    | none => simp [QueueFamilyIndices.isComplete] at h
    | some p =>
      refine ⟨g, p, _, rfl, rfl, rfl, ?_, ?_, ?_, ?_, ?_, ?_⟩
      · simp only [stdSetInsert_pair]
        by_cases h1 : p < g
        · have : g ≠ p := by omega
          simp [h1, this]
        · by_cases h2 : p = g
          · simp [h2]
          · have : g ≠ p := fun e => h2 e.symm
            simp [h1, h2, this]
      · simp only [stdSetInsert_pair]
        by_cases h1 : p < g
        · have : g ≠ p := by omega
          simp [h1, this, List.dedup_cons_of_not_mem]
        · by_cases h2 : p = g
          · simp [h2]
          · have : g ≠ p := fun e => h2 e.symm
            simp [h1, h2, this, List.dedup_cons_of_not_mem]
      · simp only [stdSetInsert_pair]
        by_cases h1 : p < g
        · have : p ≠ g := by omega
          simp [h1, this]
        · by_cases h2 : p = g
          · simp [h2]
          · have : g ≠ p := fun e => h2 e.symm
            simp [h1, h2, this]
      · intro x
        simp only [stdSetInsert_pair]
        by_cases h1 : p < g
        · simp [h1]; tauto
        · by_cases h2 : p = g
          · simp [h2]
          · simp [h1, h2]
      · intro info hinfo
        simp only [List.mem_map] at hinfo
        obtain ⟨_, _, rfl⟩ := hinfo
        rfl
      · intro host enableValidationLayers app hfind
        unfold createLogicalDevice
        simp only [hfind, queueCreateInfos]
        simp only [Application.issue, bne_iff_ne, ne_eq, ite_not]
        split <;> split <;> simp

/-- C5 at concrete indices: distinct families `0` and `1` give the two descriptors for
`0` and `1`. -/
theorem queueCreateInfos_unique_families_witness :
    ({ graphicsFamily := some 1, presentFamily := some 0 } : QueueFamilyIndices).isComplete
        = true ∧
      queueCreateInfos { graphicsFamily := some 1, presentFamily := some 0 } =
        some [{ queueFamilyIndex := 0, queueCount := 1 },
              { queueFamilyIndex := 1, queueCount := 1 }] ∧
      ∃ g p infos,
        ({ graphicsFamily := some 1, presentFamily := some 0 } :
            QueueFamilyIndices).graphicsFamily = some g ∧
        ({ graphicsFamily := some 1, presentFamily := some 0 } :
            QueueFamilyIndices).presentFamily = some p ∧
        queueCreateInfos { graphicsFamily := some 1, presentFamily := some 0 } = some infos ∧
        infos.length = (if g = p then 1 else 2) :=
  have h := queueCreateInfos_unique_families
    { graphicsFamily := some 1, presentFamily := some 0 } rfl
  ⟨rfl, by decide,
    h.elim fun g hg => hg.elim fun p hp => hp.elim fun infos hi =>
      ⟨g, p, infos, hi.1, hi.2.1, hi.2.2.1, hi.2.2.2.1⟩⟩

/-! ## Instance creation and the layer check (C7, C8) -/

/-- An exception leaving a sequence was thrown by its first or by its second part. -/
theorem andThen_exception (first second : Application → Outcome) (app : Application)
    (e : Exception) (h : (andThen first second app).2 = some e) :
    (first app).2 = some e ∨ ∃ app1, (second app1).2 = some e := by
  unfold andThen at h
  split at h
  · exact Or.inr ⟨_, h⟩
  · next app1 e1 heq =>
    left
    rw [heq]
    exact h

theorem createInstance_disabled_exception (host : Host) (app : Application) (e : Exception)
    (h : (createInstance host false app).2 = some e) :
    e = .runtime_error "failed to create instance!" := by
  unfold createInstance at h
  simp only [Bool.false_and, Bool.false_eq_true, if_false] at h
  split at h
  · simpa using h.symm
  · cases h

theorem setupDebugMessenger_disabled (host : Host) (app : Application) :
    setupDebugMessenger host false app = (app, none) := by
  simp [setupDebugMessenger]

theorem createSurface_exception (host : Host) (app : Application) (e : Exception)
    (h : (createSurface host app).2 = some e) :
    e = .runtime_error "failed to create window surface!" := by
  unfold createSurface at h
  simp only [] at h
  split at h
  · simpa using h.symm
  · cases h

theorem pickPhysicalDevice_exception (host : Host) (app : Application) (e : Exception)
    (h : (pickPhysicalDevice host app).2 = some e) :
    e = .runtime_error "failed to find GPUs with Vulkan support!" ∨
      e = .runtime_error "failed to find a suitable GPU!" := by
  unfold pickPhysicalDevice at h
  simp only [] at h
  split at h
  · left; simpa using h.symm
  · split at h
    · right; simpa using h.symm
    · cases h

theorem createLogicalDevice_exception (host : Host) (enableValidationLayers : Bool)
    (app : Application) (e : Exception)
    (h : (createLogicalDevice host enableValidationLayers app).2 = some e) :
    e = .runtime_error "failed to create logical device!" ∨ e = .bad_optional_access := by
  unfold createLogicalDevice at h
  cases enableValidationLayers <;>
  · simp only [Bool.false_eq_true, if_false, if_true] at h
    split at h
    · split at h
      · left; simpa using h.symm
      · cases h
    · right; simpa using h.symm

/-- C7: with validation layers enabled and `checkValidationLayerSupport` false,
`createInstance` throws "validation layers requested, but not available!" having issued
only the two layer-enumeration calls (no `vkCreateInstance`, the member `instance`
untouched), and `initVulkan` ends with that same state and exception, so no later step
runs; with validation layers disabled neither `createInstance` nor `initVulkan` throws
that exception, whatever the host. -/
theorem createInstance_layers_unavailable (host : Host) (app : Application) :
    (checkValidationLayerSupport validationLayers host.vkEnumerateInstanceLayerProperties = false →
        createInstance host true app =
            (app.issue [.vkEnumerateInstanceLayerProperties, .vkEnumerateInstanceLayerProperties],
              some (.runtime_error "validation layers requested, but not available!")) ∧
          initVulkan host true app = createInstance host true app ∧
          (createInstance host true app).1.vkInstance = app.vkInstance ∧
          ∀ createInfo, ApiCall.vkCreateInstance createInfo ∉
            (createInstance host true app).1.calls.drop app.calls.length) ∧
      (createInstance host false app).2 ≠
        some (.runtime_error "validation layers requested, but not available!") ∧
      (initVulkan host false app).2 ≠
        some (.runtime_error "validation layers requested, but not available!") := by
  refine ⟨?_, ?_, ?_⟩
  · intro hcheck
    have hc : createInstance host true app =
        (app.issue [.vkEnumerateInstanceLayerProperties, .vkEnumerateInstanceLayerProperties],
          some (.runtime_error "validation layers requested, but not available!")) := by
      simp [createInstance, hcheck, checkValidationLayerSupportCalls]
    refine ⟨hc, ?_, ?_, ?_⟩
    · simp [initVulkan, andThen, hc]
    · rw [hc]; rfl
    · intro createInfo
      rw [hc]
      simp [Application.issue]
  · intro h
    have := createInstance_disabled_exception host app _ h
    revert this
    decide
  · intro h
    unfold initVulkan at h
    rcases andThen_exception _ _ _ _ h with h1 | ⟨app1, h1⟩
    · have := createInstance_disabled_exception host app _ h1
      revert this; decide
    · rcases andThen_exception _ _ _ _ h1 with h2 | ⟨app2, h2⟩
      · rw [setupDebugMessenger_disabled] at h2
        cases h2
      · rcases andThen_exception _ _ _ _ h2 with h3 | ⟨app3, h3⟩
        · have := createSurface_exception host _ _ h3
          revert this; decide
        · rcases andThen_exception _ _ _ _ h3 with h4 | ⟨app4, h4⟩
          · rcases pickPhysicalDevice_exception host _ _ h4 with h5 | h5
            · revert h5; decide
            · revert h5; decide
          · rcases createLogicalDevice_exception host _ _ _ h4 with h5 | h5
            · revert h5; decide
            · cases h5

/-- C7 at a concrete host (Scenario D): no layer is available; with validation layers
enabled the bootstrap of a fresh object stops in `createInstance` after the two
enumeration calls. -/
theorem createInstance_layers_unavailable_witness :
    checkValidationLayerSupport validationLayers
        hostNoLayers.vkEnumerateInstanceLayerProperties = false ∧
      initVulkan hostNoLayers true freshApplication =
        ({ freshApplication with
            calls := [.vkEnumerateInstanceLayerProperties, .vkEnumerateInstanceLayerProperties] },
          some (.runtime_error "validation layers requested, but not available!")) :=
  have h := (createInstance_layers_unavailable hostNoLayers freshApplication).1 (by decide)
  ⟨by decide, h.2.1.trans h.1⟩

/-- The inner loop finds a layer iff some available layer has exactly that name. -/
theorem layerFound_iff (layerName : String) (availableLayers : List VkLayerProperties) :
    layerFound layerName availableLayers = true ↔
      ∃ l ∈ availableLayers, l.layerName = layerName := by
  induction availableLayers with
  | nil => simp [layerFound]
  | cons a rest ih =>
    by_cases h : layerName = a.layerName
    · simp [layerFound, h]
    · have h2 : ¬ a.layerName = layerName := fun e => h e.symm
      simp [layerFound, h, h2, ih]

theorem checkValidationLayerSupport_iff (requested : List String)
    (availableLayers : List VkLayerProperties) :
    checkValidationLayerSupport requested availableLayers = true ↔
      ∀ name ∈ requested, ∃ l ∈ availableLayers, l.layerName = name := by
  induction requested with
  | nil => simp [checkValidationLayerSupport]
  | cons a rest ih =>
    by_cases h : layerFound a availableLayers = true
    · have h2 := (layerFound_iff a availableLayers).mp h
      simp only [checkValidationLayerSupport, h, Bool.not_true, Bool.false_eq_true, if_false,
        ih, List.mem_cons, forall_eq_or_imp]
      exact ⟨fun hr => ⟨h2, hr⟩, fun hr => hr.2⟩
    · have h0 : layerFound a availableLayers = false := by simpa using h
      have h2 : ¬ ∃ l ∈ availableLayers, l.layerName = a :=
        fun hex => h ((layerFound_iff a availableLayers).mpr hex)
      simp only [checkValidationLayerSupport, h0, Bool.not_false, if_true, Bool.false_eq_true,
        false_iff, List.mem_cons, forall_eq_or_imp, not_and]
      intro hex
      exact absurd hex h2

/-- C8: `checkValidationLayerSupport` returns `true` iff every requested name equals the
name of some available layer; the answer does not change when either list is reordered;
for a single requested name it is `true` iff that name is among the available names; and
the comparison is exact: a name differing only in letter case is not found. -/
theorem checkValidationLayerSupport_spec (requested : List String)
    (availableLayers : List VkLayerProperties) :
    (checkValidationLayerSupport requested availableLayers = true ↔
        ∀ name ∈ requested, ∃ l ∈ availableLayers, l.layerName = name) ∧
      (∀ requested2 availableLayers2, requested.Perm requested2 →
        availableLayers.Perm availableLayers2 →
        checkValidationLayerSupport requested2 availableLayers2 =
          checkValidationLayerSupport requested availableLayers) ∧
      (∀ x, checkValidationLayerSupport [x] availableLayers = true ↔
        x ∈ availableLayers.map VkLayerProperties.layerName) ∧
      checkValidationLayerSupport ["VK_LAYER_KHRONOS_validation"]
        [{ layerName := "vk_layer_khronos_validation" }] = false := by
  refine ⟨checkValidationLayerSupport_iff requested availableLayers, ?_, ?_, by decide⟩
  · intro requested2 availableLayers2 hr ha
    rw [Bool.eq_iff_iff, checkValidationLayerSupport_iff, checkValidationLayerSupport_iff]
    constructor
    · intro h name hn
      obtain ⟨l, hl, hname⟩ := h name (hr.mem_iff.mp hn)
      exact ⟨l, ha.mem_iff.mpr hl, hname⟩
    · intro h name hn
      obtain ⟨l, hl, hname⟩ := h name (hr.mem_iff.mpr hn)
      exact ⟨l, ha.mem_iff.mp hl, hname⟩
  · intro x
    rw [checkValidationLayerSupport_iff]
    simp

/-! ## Required extensions (C9) -/

/-- C9, counterexample: when the list GLFW demands already holds the debug-utils name,
the result with validation layers enabled holds it twice, and the result with validation
layers disabled holds it. -/
theorem getRequiredExtensions_duplicate_name :
    (getRequiredExtensions [VK_EXT_DEBUG_UTILS_EXTENSION_NAME] true).count
        VK_EXT_DEBUG_UTILS_EXTENSION_NAME = 2 ∧
      VK_EXT_DEBUG_UTILS_EXTENSION_NAME ∈
        getRequiredExtensions [VK_EXT_DEBUG_UTILS_EXTENSION_NAME] false := by
  refine ⟨by decide, by decide⟩

/-- C9, amended: with validation layers enabled `getRequiredExtensions` returns the base
list, in order, followed by the debug-utils name, which occurs once more than in the
base list, hence exactly once when the base list does not contain it; with validation
layers disabled the result is the base list, which does not contain the name when the
base list does not. -/
theorem getRequiredExtensions_spec (glfwExtensions : List String) :
    getRequiredExtensions glfwExtensions true =
        glfwExtensions ++ [VK_EXT_DEBUG_UTILS_EXTENSION_NAME] ∧
      (getRequiredExtensions glfwExtensions true).count VK_EXT_DEBUG_UTILS_EXTENSION_NAME =
        glfwExtensions.count VK_EXT_DEBUG_UTILS_EXTENSION_NAME + 1 ∧
      (VK_EXT_DEBUG_UTILS_EXTENSION_NAME ∉ glfwExtensions →
        (getRequiredExtensions glfwExtensions true).count VK_EXT_DEBUG_UTILS_EXTENSION_NAME = 1) ∧
      getRequiredExtensions glfwExtensions false = glfwExtensions ∧
      (VK_EXT_DEBUG_UTILS_EXTENSION_NAME ∉ glfwExtensions →
        VK_EXT_DEBUG_UTILS_EXTENSION_NAME ∉ getRequiredExtensions glfwExtensions false) := by
  refine ⟨by simp [getRequiredExtensions], by simp [getRequiredExtensions], ?_,
    by simp [getRequiredExtensions], ?_⟩
  · intro h
    simp [getRequiredExtensions, List.count_eq_zero_of_not_mem h]
  · intro h
    simpa [getRequiredExtensions] using h

/-! ## Teardown order (C10) -/

/-- C10, counterexample: a successful bootstrap with validation layers enabled creates
instance, debug messenger, surface, device in that order; `cleanup` destroys device,
debug messenger, surface, instance, which is not the reverse: the surface was created
after the debug messenger and is destroyed after it too. -/
theorem cleanup_not_reverse_of_creation :
    (initVulkan hostScenarioA true freshApplication).2 = none ∧
      creationOrder (issuedSince freshApplication
          (initVulkan hostScenarioA true freshApplication).1) =
        [.vkInstance, .debugMessenger, .surface, .device] ∧
      destructionOrder (issuedSince (initVulkan hostScenarioA true freshApplication).1
          (cleanup hostScenarioA true (initVulkan hostScenarioA true freshApplication).1)) =
        [.device, .debugMessenger, .surface, .vkInstance] ∧
      destructionOrder (issuedSince (initVulkan hostScenarioA true freshApplication).1
          (cleanup hostScenarioA true (initVulkan hostScenarioA true freshApplication).1)) ≠
        (creationOrder (issuedSince freshApplication
          (initVulkan hostScenarioA true freshApplication).1)).reverse := by
  refine ⟨by decide, by decide, by decide, by decide⟩

/-- A sequence that returned ran both parts, each returning. -/
theorem andThen_returned (first second : Application → Outcome) (app app2 : Application)
    (h : andThen first second app = (app2, none)) :
    ∃ app1, first app = (app1, none) ∧ second app1 = (app2, none) := by
  unfold andThen at h
  split at h
  · next app1 heq => exact ⟨app1, heq, h⟩
  · cases h

theorem creationOrder_append (cs ds : List ApiCall) :
    creationOrder (cs ++ ds) = creationOrder cs ++ creationOrder ds := by
  simp [creationOrder]

theorem creationOrder_findQueueFamiliesCalls (surface : VkSurfaceKHR)
    (device : VkPhysicalDevice) :
    creationOrder (findQueueFamiliesCalls surface device) = [] := rfl

theorem creationOrder_properties (devices : List VkPhysicalDevice) :
    creationOrder (devices.map .vkGetPhysicalDeviceProperties) = [] := by
  induction devices with
  | nil => rfl
  | cons d rest ih =>
    simp only [creationOrder] at ih
    simp [creationOrder, ApiCall.creates, ih]

theorem createInstance_returned (host : Host) (enableValidationLayers : Bool)
    (app app1 : Application) (h : createInstance host enableValidationLayers app = (app1, none)) :
    ∃ cs, app1.calls = app.calls ++ cs ∧ creationOrder cs = [.vkInstance] := by
  unfold createInstance at h
  cases enableValidationLayers <;>
  · simp only [Bool.false_and, Bool.true_and, Bool.false_eq_true, if_false, if_true] at h
    repeat' split at h
    all_goals first
      | (cases h; done)
      | (simp only [Prod.mk.injEq, and_true] at h
         subst h
         exact ⟨_, by simp only [Application.issue, List.append_assoc]; rfl, by rfl⟩)

theorem setupDebugMessenger_returned (host : Host) (enableValidationLayers : Bool)
    (app app1 : Application)
    (h : setupDebugMessenger host enableValidationLayers app = (app1, none)) :
    ∃ cs, app1.calls = app.calls ++ cs ∧
      creationOrder cs = if enableValidationLayers then [.debugMessenger] else [] := by
  unfold setupDebugMessenger CreateDebugUtilsMessengerEXT at h
  cases enableValidationLayers
  · simp only [Bool.not_false, if_true, Prod.mk.injEq, and_true] at h
    subst h
    exact ⟨[], by simp, rfl⟩
  · simp only [Bool.not_true, Bool.false_eq_true, if_false] at h
    by_cases hl : host.vkGetInstanceProcAddr app.vkInstance "vkCreateDebugUtilsMessengerEXT" = true
    · simp only [hl, if_true] at h
      repeat' split at h
      all_goals first
        | (cases h; done)
        | (simp only [Prod.mk.injEq, and_true] at h
           subst h
           exact ⟨_, by simp only [Application.issue, List.append_assoc]; rfl, by rfl⟩)
    · simp only [hl, if_false] at h
      simp [VK_ERROR_EXTENSION_NOT_PRESENT, VK_SUCCESS] at h

theorem createSurface_returned (host : Host) (app app1 : Application)
    (h : createSurface host app = (app1, none)) :
    ∃ cs, app1.calls = app.calls ++ cs ∧ creationOrder cs = [.surface] := by
  unfold createSurface at h
  simp only [] at h
  split at h
  · cases h
  · simp only [Prod.mk.injEq, and_true] at h
    subst h
    exact ⟨_, rfl, rfl⟩

theorem chooseSuitableDevice_calls (host : Host) (devices : List VkPhysicalDevice) :
    ∀ app : Application, ∃ cs,
      (chooseSuitableDevice host devices app).calls = app.calls ++ cs ∧
        creationOrder cs = [] := by
  induction devices with
  | nil => intro app; exact ⟨[], by simp [chooseSuitableDevice], rfl⟩
  | cons d rest ih =>
    intro app
    by_cases hd : isDeviceSuitable host app.surface d = true
    · refine ⟨findQueueFamiliesCalls app.surface d ++ [.vkGetPhysicalDeviceProperties d], ?_, ?_⟩
      · simp [chooseSuitableDevice, hd, Application.issue]
      · rfl
    · obtain ⟨cs, hcs, hnil⟩ := ih (app.issue (findQueueFamiliesCalls app.surface d))
      refine ⟨findQueueFamiliesCalls app.surface d ++ cs, ?_, ?_⟩
      · simp only [chooseSuitableDevice, hd, Bool.false_eq_true, if_false]
        rw [hcs]
        simp [Application.issue]
      · rw [creationOrder_append, hnil]
        rfl

theorem pickPhysicalDevice_returned (host : Host) (app app1 : Application)
    (h : pickPhysicalDevice host app = (app1, none)) :
    ∃ cs, app1.calls = app.calls ++ cs ∧ creationOrder cs = [] := by
  unfold pickPhysicalDevice at h
  simp only [] at h
  split at h
  · cases h
  · split at h
    · cases h
    · simp only [Prod.mk.injEq, and_true] at h
      subst h
      obtain ⟨cs, hcs, hnil⟩ := chooseSuitableDevice_calls host
        (host.vkEnumeratePhysicalDevices app.vkInstance)
        (((app.issue [.vkEnumeratePhysicalDevices app.vkInstance]).issue
          [.vkEnumeratePhysicalDevices app.vkInstance]).issue
          ((host.vkEnumeratePhysicalDevices app.vkInstance).map .vkGetPhysicalDeviceProperties))
      refine ⟨[.vkEnumeratePhysicalDevices app.vkInstance,
          .vkEnumeratePhysicalDevices app.vkInstance] ++
          (host.vkEnumeratePhysicalDevices app.vkInstance).map .vkGetPhysicalDeviceProperties ++
          cs, ?_, ?_⟩
      · rw [hcs]
        simp [Application.issue]
      · rw [creationOrder_append, creationOrder_append, hnil, creationOrder_properties]
        rfl

theorem createLogicalDevice_returned (host : Host) (enableValidationLayers : Bool)
    (app app1 : Application)
    (h : createLogicalDevice host enableValidationLayers app = (app1, none)) :
    ∃ cs, app1.calls = app.calls ++ cs ∧ creationOrder cs = [.device] := by
  unfold createLogicalDevice at h
  cases enableValidationLayers <;>
  · simp only [Bool.false_eq_true, if_false, if_true] at h
    split at h
    · split at h
      · cases h
      · simp only [Prod.mk.injEq, and_true] at h
        subst h
        exact ⟨_, by simp only [Application.issue, List.append_assoc]; rfl, by rfl⟩
    · cases h

/-- C10, amended: after a bootstrap that returned, the resources were created in the
order instance, debug messenger (only with validation layers enabled), surface, device.
`cleanup` issues `vkDestroyDevice` first, then, with validation layers enabled, the
lookup of the messenger destroy function and, when it is resolved, the messenger
destruction, then `vkDestroySurfaceKHR` and `vkDestroyInstance` (followed by the GLFW
teardown).  So the device is destroyed first and the instance last; with validation
layers disabled the destroy order is the reverse of the creation order; with them
enabled the debug messenger is destroyed before the surface. -/
theorem cleanup_destroy_order (host : Host) (enableValidationLayers : Bool)
    (app app1 : Application)
    (h : initVulkan host enableValidationLayers app = (app1, none)) :
    creationOrder (issuedSince app app1) =
        [.vkInstance] ++ (if enableValidationLayers then [.debugMessenger] else []) ++
          [.surface, .device] ∧
      issuedSince app1 (cleanup host enableValidationLayers app1) =
        [.vkDestroyDevice app1.device] ++
          (if enableValidationLayers then
            [.vkGetInstanceProcAddr app1.vkInstance "vkDestroyDebugUtilsMessengerEXT"] ++
              (if host.vkGetInstanceProcAddr app1.vkInstance "vkDestroyDebugUtilsMessengerEXT"
                then [.vkDestroyDebugUtilsMessengerEXT app1.vkInstance app1.debugMessenger]
                else [])
          else []) ++
          [.vkDestroySurfaceKHR app1.vkInstance app1.surface,
           .vkDestroyInstance app1.vkInstance,
           .glfwDestroyWindow app1.window,
           .glfwTerminate] ∧
      destructionOrder (issuedSince app1 (cleanup host enableValidationLayers app1)) =
        [.device] ++
          (if enableValidationLayers &&
              host.vkGetInstanceProcAddr app1.vkInstance "vkDestroyDebugUtilsMessengerEXT"
            then [.debugMessenger] else []) ++
          [.surface, .vkInstance] ∧
      (enableValidationLayers = false →
        destructionOrder (issuedSince app1 (cleanup host enableValidationLayers app1)) =
          (creationOrder (issuedSince app app1)).reverse) := by
  have hcreate : creationOrder (issuedSince app app1) =
      [.vkInstance] ++ (if enableValidationLayers then [.debugMessenger] else []) ++
        [.surface, .device] := by
    unfold initVulkan at h
    obtain ⟨a1, h1, h⟩ := andThen_returned _ _ _ _ h
    obtain ⟨a2, h2, h⟩ := andThen_returned _ _ _ _ h
    obtain ⟨a3, h3, h⟩ := andThen_returned _ _ _ _ h
    obtain ⟨a4, h4, h5⟩ := andThen_returned _ _ _ _ h
    obtain ⟨c1, e1, o1⟩ := createInstance_returned host _ _ _ h1
    obtain ⟨c2, e2, o2⟩ := setupDebugMessenger_returned host _ _ _ h2
    obtain ⟨c3, e3, o3⟩ := createSurface_returned host _ _ h3
    obtain ⟨c4, e4, o4⟩ := pickPhysicalDevice_returned host _ _ h4
    obtain ⟨c5, e5, o5⟩ := createLogicalDevice_returned host _ _ _ h5
    have hcalls : app1.calls = app.calls ++ (c1 ++ (c2 ++ (c3 ++ (c4 ++ c5)))) := by
      rw [e5, e4, e3, e2, e1]
      simp only [List.append_assoc]
    unfold issuedSince
    rw [hcalls, List.drop_left]
    simp only [creationOrder_append, o1, o2, o3, o4, o5]
    cases enableValidationLayers <;> rfl
  have hcalls : issuedSince app1 (cleanup host enableValidationLayers app1) =
      [.vkDestroyDevice app1.device] ++
        (if enableValidationLayers then
          [.vkGetInstanceProcAddr app1.vkInstance "vkDestroyDebugUtilsMessengerEXT"] ++
            (if host.vkGetInstanceProcAddr app1.vkInstance "vkDestroyDebugUtilsMessengerEXT"
              then [.vkDestroyDebugUtilsMessengerEXT app1.vkInstance app1.debugMessenger]
              else [])
        else []) ++
        [.vkDestroySurfaceKHR app1.vkInstance app1.surface,
         .vkDestroyInstance app1.vkInstance,
         .glfwDestroyWindow app1.window,
         .glfwTerminate] := by
    unfold issuedSince cleanup DestroyDebugUtilsMessengerEXT
    cases enableValidationLayers
    · simp [Application.issue]
    · by_cases hl :
        host.vkGetInstanceProcAddr app1.vkInstance "vkDestroyDebugUtilsMessengerEXT" = true
      · simp [Application.issue, hl]
      · simp [Application.issue, hl]
  have hdestroy : destructionOrder (issuedSince app1 (cleanup host enableValidationLayers app1)) =
      [.device] ++
        (if enableValidationLayers &&
            host.vkGetInstanceProcAddr app1.vkInstance "vkDestroyDebugUtilsMessengerEXT"
          then [.debugMessenger] else []) ++
        [.surface, .vkInstance] := by
    rw [hcalls]
    cases enableValidationLayers
    · rfl
    · by_cases hl :
        host.vkGetInstanceProcAddr app1.vkInstance "vkDestroyDebugUtilsMessengerEXT" = true
      · simp [hl, destructionOrder, ApiCall.destroys]
      · simp [hl, destructionOrder, ApiCall.destroys]
  refine ⟨hcreate, hcalls, hdestroy, ?_⟩
  intro hoff
  rw [hdestroy, hcreate, hoff]
  rfl

/-- C10 at a concrete host, validation layers disabled: the bootstrap of a fresh object
returns, the creation order is instance, surface, device and the destroy order is
device, surface, instance. -/
theorem cleanup_destroy_order_witness :
    initVulkan hostScenarioA false freshApplication =
        ((initVulkan hostScenarioA false freshApplication).1, none) ∧
      creationOrder (issuedSince freshApplication
          (initVulkan hostScenarioA false freshApplication).1) =
        [.vkInstance, .surface, .device] ∧
      destructionOrder (issuedSince (initVulkan hostScenarioA false freshApplication).1
          (cleanup hostScenarioA false (initVulkan hostScenarioA false freshApplication).1)) =
        [.device, .surface, .vkInstance] :=
  have h := cleanup_destroy_order hostScenarioA false freshApplication
    (initVulkan hostScenarioA false freshApplication).1 (by decide)
  ⟨by decide, h.1, h.2.2.1⟩

/-! ## Queue retrieval and device creation (C11) -/

/-- C11, the code at the failing input (one device whose single family has graphics and
presentation, every host call succeeding): `createLogicalDevice` starts with the member
`device` still holding its uninitialised value `0`, and issues `vkGetDeviceQueue` for
the presentation family on that value before `vkCreateDevice`; the handle `104` that
`vkCreateDevice` produces is used only for the graphics-family retrieval after it. -/
theorem createLogicalDevice_queue_before_device :
    pickedApplication.device = 0 ∧ pickedApplication.physicalDevice = 1 ∧
      (createLogicalDevice hostScenarioA false pickedApplication).2 = none ∧
      (createLogicalDevice hostScenarioA false pickedApplication).1.device = 104 ∧
      issuedSince pickedApplication
          (createLogicalDevice hostScenarioA false pickedApplication).1 =
        [.vkGetPhysicalDeviceQueueFamilyProperties 1,
         .vkGetPhysicalDeviceQueueFamilyProperties 1,
         .vkGetPhysicalDeviceSurfaceSupportKHR 1 0 103,
         .vkGetDeviceQueue 0 0 0,
         .vkCreateDevice 1
           { queueCreateInfos := [{ queueFamilyIndex := 0, queueCount := 1 }],
             enabledExtensionCount := 0, enabledLayerNames := [] },
         .vkGetDeviceQueue 104 0 0] ∧
      initVulkan hostScenarioA false freshApplication =
        createLogicalDevice hostScenarioA false pickedApplication := by
  refine ⟨by decide, by decide, by decide, by decide, by decide, by decide⟩

/-! ## Coinciding families (C12) -/

/-- A complete result of `findQueueFamilies` holds, in both fields, the smallest index of
a family with the graphics bit. -/
theorem findQueueFamilies_complete (host : Host) (surface : VkSurfaceKHR)
    (device : VkPhysicalDevice)
    (h : (findQueueFamilies host surface device).isComplete = true) :
    ∃ k q, (host.vkGetPhysicalDeviceQueueFamilyProperties device)[k]? = some q ∧
      hasGraphicsBit q = true ∧
      (∀ j q1, (host.vkGetPhysicalDeviceQueueFamilyProperties device)[j]? = some q1 →
        hasGraphicsBit q1 = true → k ≤ j) ∧
      findQueueFamilies host surface device =
        { graphicsFamily := some k, presentFamily := some k } := by
  unfold findQueueFamilies at h ⊢
  simp only [] at h ⊢
  cases hs : host.vkGetPhysicalDeviceSurfaceSupportKHR device 0 surface with
  | false =>
    rw [hs] at h
    have hp := findQueueFamiliesLoop_false_presentFamily
      (host.vkGetPhysicalDeviceQueueFamilyProperties device) 0
      { graphicsFamily := none, presentFamily := none } rfl
    rw [isComplete_eq_false_of_presentFamily _ hp] at h
    cases h
  | true =>
    rw [hs] at h
    rcases findQueueFamiliesLoop_true (host.vkGetPhysicalDeviceQueueFamilyProperties device) 0
        { graphicsFamily := none, presentFamily := none } rfl with
      ⟨hg, _⟩ | ⟨k, q, hk, hq, hmin, hr⟩
    · simp [QueueFamilyIndices.isComplete, hg] at h
    · rw [Nat.zero_add] at hr
      exact ⟨k, q, hk, hq, hmin, hr⟩

/-- The host calls `createLogicalDevice` issues when the resolved indices are `g` and
`p`: the resolution queries, the presentation-queue retrieval on the member `device` as
it was, the device creation, and after a successful creation the graphics-queue
retrieval on the created handle. -/
theorem createLogicalDevice_issued (host : Host) (enableValidationLayers : Bool)
    (app : Application) (g p : Nat) (infos : List VkDeviceQueueCreateInfo)
    (hfind : findQueueFamilies host app.surface app.physicalDevice =
      { graphicsFamily := some g, presentFamily := some p })
    (hinfos : queueCreateInfos { graphicsFamily := some g, presentFamily := some p } =
      some infos) :
    issuedSince app (createLogicalDevice host enableValidationLayers app).1 =
      findQueueFamiliesCalls app.surface app.physicalDevice ++
        [.vkGetDeviceQueue app.device p 0,
         .vkCreateDevice app.physicalDevice
           { queueCreateInfos := infos, enabledExtensionCount := 0,
             enabledLayerNames := if enableValidationLayers then validationLayers else [] }] ++
        (if (host.vkCreateDevice app.physicalDevice
              { queueCreateInfos := infos, enabledExtensionCount := 0,
                enabledLayerNames :=
                  if enableValidationLayers then validationLayers else [] }).1 = VK_SUCCESS
          then [.vkGetDeviceQueue
            (host.vkCreateDevice app.physicalDevice
              { queueCreateInfos := infos, enabledExtensionCount := 0,
                enabledLayerNames :=
                  if enableValidationLayers then validationLayers else [] }).2 g 0]
          else []) := by
  unfold issuedSince createLogicalDevice
  simp only [hfind, hinfos, Application.issue, bne_iff_ne, ne_eq, ite_not]
  cases enableValidationLayers <;>
  · simp only [Bool.false_eq_true, if_false, if_true]
    split <;> simp

/-- A device stored by `pickPhysicalDevice` in a `physicalDevice` that was still
`VK_NULL_HANDLE` is an enumerated device that `isDeviceSuitable` accepted; the surface
member is left as it was. -/
theorem pickPhysicalDevice_selected (host : Host) (app app1 : Application)
    (hnull : app.physicalDevice = VK_NULL_HANDLE)
    (h : pickPhysicalDevice host app = (app1, none)) :
    app1.surface = app.surface ∧
      app1.physicalDevice ∈ host.vkEnumeratePhysicalDevices app.vkInstance ∧
      isDeviceSuitable host app.surface app1.physicalDevice = true := by
  by_cases hex : ∃ d ∈ host.vkEnumeratePhysicalDevices app.vkInstance,
      isDeviceSuitable host app.surface d = true
  · obtain ⟨pre, d, post, hl, hpre, hd⟩ := exists_first_split _ _ hex
    have hlen : ((pre ++ d :: post).length == 0) = false := by simp
    have hne : d ≠ VK_NULL_HANDLE :=
      host.enumerated_ne_null app.vkInstance d (by rw [hl]; simp)
    unfold pickPhysicalDevice at h
    simp only [hl, hlen, Bool.false_eq_true, if_false] at h
    rw [chooseSuitableDevice_first host pre d post _ (by simpa using hpre)
      (by simpa using hd)] at h
    simp only [beq_iff_eq, hne, if_false, Prod.mk.injEq, and_true] at h
    subst h
    exact ⟨rfl, by rw [hl]; simp, hd⟩
  · have hall : ∀ d ∈ host.vkEnumeratePhysicalDevices app.vkInstance,
        isDeviceSuitable host app.surface d = false := by
      intro d hd
      by_contra hsd
      exact hex ⟨d, hd, by simpa using hsd⟩
    exfalso
    unfold pickPhysicalDevice at h
    simp only [] at h
    split at h
    · cases h
    · rw [chooseSuitableDevice_none host _ _ (by simpa using hall)] at h
      simp [hnull] at h

theorem queueCreateInfos_same_family (k : Nat) :
    queueCreateInfos { graphicsFamily := some k, presentFamily := some k } =
      some [{ queueFamilyIndex := k, queueCount := 1 }] := by
  simp [queueCreateInfos, stdSetInsert_pair]

/-- C12: whenever `findQueueFamilies` returns a complete result, `graphicsFamily` and
`presentFamily` are the same index `k`, the smallest index of a family with the graphics
bit, and the descriptor list built from the result is the single descriptor for `k`.
Consequently, for a device that `pickPhysicalDevice` selected (stored in a
`physicalDevice` that was `VK_NULL_HANDLE`), `createLogicalDevice` issues exactly one
`vkCreateDevice` call, with exactly one queue-creation descriptor. -/
theorem findQueueFamilies_complete_coincide (host : Host) :
    (∀ (surface : VkSurfaceKHR) (device : VkPhysicalDevice),
      (findQueueFamilies host surface device).isComplete = true →
      ∃ k q, (host.vkGetPhysicalDeviceQueueFamilyProperties device)[k]? = some q ∧
        hasGraphicsBit q = true ∧
        (∀ j q1, (host.vkGetPhysicalDeviceQueueFamilyProperties device)[j]? = some q1 →
          hasGraphicsBit q1 = true → k ≤ j) ∧
        (findQueueFamilies host surface device).graphicsFamily = some k ∧
        (findQueueFamilies host surface device).presentFamily = some k ∧
        queueCreateInfos (findQueueFamilies host surface device) =
          some [{ queueFamilyIndex := k, queueCount := 1 }]) ∧
      (∀ (app app1 : Application) (enableValidationLayers : Bool),
        app.physicalDevice = VK_NULL_HANDLE →
        pickPhysicalDevice host app = (app1, none) →
        ∃ k,
          findQueueFamilies host app1.surface app1.physicalDevice =
            { graphicsFamily := some k, presentFamily := some k } ∧
          issuedSince app1 (createLogicalDevice host enableValidationLayers app1).1 =
            findQueueFamiliesCalls app1.surface app1.physicalDevice ++
              [.vkGetDeviceQueue app1.device k 0,
               .vkCreateDevice app1.physicalDevice
                 { queueCreateInfos := [{ queueFamilyIndex := k, queueCount := 1 }],
                   enabledExtensionCount := 0,
                   enabledLayerNames :=
                     if enableValidationLayers then validationLayers else [] }] ++
              (if (host.vkCreateDevice app1.physicalDevice
                    { queueCreateInfos := [{ queueFamilyIndex := k, queueCount := 1 }],
                      enabledExtensionCount := 0,
                      enabledLayerNames :=
                        if enableValidationLayers then validationLayers else [] }).1 =
                  VK_SUCCESS
                then [.vkGetDeviceQueue
                  (host.vkCreateDevice app1.physicalDevice
                    { queueCreateInfos := [{ queueFamilyIndex := k, queueCount := 1 }],
                      enabledExtensionCount := 0,
                      enabledLayerNames :=
                        if enableValidationLayers then validationLayers else [] }).2 k 0]
                else []) ∧
          ∀ physicalDevice createInfo,
            ApiCall.vkCreateDevice physicalDevice createInfo ∈
                issuedSince app1 (createLogicalDevice host enableValidationLayers app1).1 →
              createInfo.queueCreateInfos.length = 1) := by
  constructor
  · intro surface device h
    obtain ⟨k, q, hk, hq, hmin, hr⟩ := findQueueFamilies_complete host surface device h
    refine ⟨k, q, hk, hq, hmin, ?_, ?_, ?_⟩
    · rw [hr]
    · rw [hr]
    · rw [hr]; exact queueCreateInfos_same_family k
  · intro app app1 enableValidationLayers hnull hpick
    obtain ⟨hsurf, _, hsuit⟩ := pickPhysicalDevice_selected host app app1 hnull hpick
    rw [← hsurf] at hsuit
    obtain ⟨k, _, _, _, _, hr⟩ :=
      findQueueFamilies_complete host app1.surface app1.physicalDevice hsuit
    have htrace := createLogicalDevice_issued host enableValidationLayers app1 k k _ hr
      (queueCreateInfos_same_family k)
    refine ⟨k, hr, htrace, ?_⟩
    intro physicalDevice createInfo hmem
    rw [htrace] at hmem
    have hmem2 : ApiCall.vkCreateDevice physicalDevice createInfo =
        .vkCreateDevice app1.physicalDevice
          { queueCreateInfos := [{ queueFamilyIndex := k, queueCount := 1 }],
            enabledExtensionCount := 0,
            enabledLayerNames := if enableValidationLayers then validationLayers else [] } := by
      cases enableValidationLayers <;>
      · simp only [Bool.false_eq_true, if_false, if_true] at hmem ⊢
        split at hmem <;> simpa [findQueueFamiliesCalls] using hmem
    cases hmem2
    rfl

/-- C12 at a concrete host (Scenario A): the single family of the device has graphics
and presentation, the resolved indices are both `0`, and the device selected for a fresh
object gets exactly one queue-creation descriptor. -/
theorem findQueueFamilies_complete_coincide_witness :
    (findQueueFamilies hostScenarioA 103 1).isComplete = true ∧
      findQueueFamilies hostScenarioA 103 1 =
        { graphicsFamily := some 0, presentFamily := some 0 } ∧
      (∃ k q, (hostScenarioA.vkGetPhysicalDeviceQueueFamilyProperties 1)[k]? = some q ∧
        hasGraphicsBit q = true ∧
        (∀ j q1, (hostScenarioA.vkGetPhysicalDeviceQueueFamilyProperties 1)[j]? = some q1 →
          hasGraphicsBit q1 = true → k ≤ j) ∧
        (findQueueFamilies hostScenarioA 103 1).graphicsFamily = some k ∧
        (findQueueFamilies hostScenarioA 103 1).presentFamily = some k ∧
        queueCreateInfos (findQueueFamilies hostScenarioA 103 1) =
          some [{ queueFamilyIndex := k, queueCount := 1 }]) ∧
      pickPhysicalDevice hostScenarioA freshApplication =
        ((pickPhysicalDevice hostScenarioA freshApplication).1, none) ∧
      ∃ k, findQueueFamilies hostScenarioA
          (pickPhysicalDevice hostScenarioA freshApplication).1.surface
          (pickPhysicalDevice hostScenarioA freshApplication).1.physicalDevice =
        { graphicsFamily := some k, presentFamily := some k } :=
  have h := findQueueFamilies_complete_coincide hostScenarioA
  ⟨by decide, by decide, h.1 103 1 (by decide), by decide,
    (h.2 freshApplication (pickPhysicalDevice hostScenarioA freshApplication).1 false rfl
      (by decide)).elim fun k hk => ⟨k, hk.1⟩⟩

end VulkanTest
